import Mathlib

/-!
A shallow embedding of the `DeNewsContent` contract
(src/contracts/DeNewsToken.sol) and proofs about the moderation and
governance engine it implements.

Modelling conventions:
* `address` is modelled as `Nat` (`0` plays the role of `address(0)`);
  `bytes32` role identifiers are modelled as `Nat` with distinguished
  constants for the three roles that occur in the contract.
* Solidity mappings are total functions returning the zero-initialised
  default struct, exactly as EVM storage does.
* `uint256` arithmetic is modelled over `Nat`.  Solidity 0.8 checked
  arithmetic never produces a wrapped value (it reverts at `2 ^ 256`),
  so every value the code can actually compute agrees with the `Nat`
  model; the astronomically unreachable overflow revert is idealised
  away.
* `abi.encode` / `abi.decode` payloads are modelled by the closed
  inductive `ProposalData`; decoding a payload of the wrong shape
  reverts, which the model renders as an error that aborts the whole
  operation.
* Every external entry point is a function `State → args → time →
  Except Err State`; a reverted transaction leaves the state unchanged,
  which `applyOp` makes explicit.  `block.timestamp` is the explicit
  `t` argument of each operation.
-/

namespace DeNews

/-- Solidity `address`, modelled as a natural number; `0` is `address(0)`. -/
abbrev Addr := Nat

/-- Solidity `bytes32` role identifiers, modelled abstractly as naturals. -/
abbrev RoleId := Nat

/-- OpenZeppelin `DEFAULT_ADMIN_ROLE` (`0x00`). -/
def DEFAULT_ADMIN_ROLE : RoleId := 0

/-- Hash `keccak256("ADMIN_ROLE")`, abstracted. -/
def ADMIN_ROLE : RoleId := 1

/-- Hash `keccak256("MODERATOR_ROLE")`, abstracted. -/
def MODERATOR_ROLE : RoleId := 2

/-- Source `enum UserType { Individual, Journalist, Organization }` -/
inductive UserType where
  | Individual
  | Journalist
  | Organization
deriving DecidableEq

/-- Source `enum ModerationStatus { None, Flagged, UnderVote, Removed }` -/
inductive ModerationStatus where
  | None
  | Flagged
  | UnderVote
  | Removed
deriving DecidableEq

/-- Source `enum ProposalStatus { Active, Passed, Rejected, Executed }` -/
inductive ProposalStatus where
  | Active
  | Passed
  | Rejected
  | Executed
deriving DecidableEq

/-- Source `enum ProposalType { RemoveContent, UpdateParameters, GrantRole, RevokeRole }` -/
inductive ProposalType where
  | RemoveContent
  | UpdateParameters
  | GrantRole
  | RevokeRole
deriving DecidableEq

/-- The `bytes data` payload of a proposal: the closed set of shapes
`abi.encode` is applied to in the contract, plus the empty default. -/
inductive ProposalData where
  | empty
  | uintData (n : Nat)
  | stringUintData (s : String) (n : Nat)
  | roleAddrData (r : RoleId) (a : Addr)
deriving DecidableEq

/-- Decoder `abi.decode(data, (uint256))`; reverts (`none`) on any other shape. -/
def decodeUint : ProposalData → Option Nat
  | .uintData n => some n
  | _ => none

/-- Decoder `abi.decode(data, (string, uint256))`; reverts on any other shape. -/
def decodeStringUint : ProposalData → Option (String × Nat)
  | .stringUintData s n => some (s, n)
  | _ => none

/-- Decoder `abi.decode(data, (bytes32, address))`; reverts on any other shape. -/
def decodeRoleAddr : ProposalData → Option (RoleId × Addr)
  | .roleAddrData r a => some (r, a)
  | _ => none

/-- Source `struct UserProfile`. -/
structure UserProfile where
  userAddress : Addr
  username : String
  metadataHash : String
  userType : UserType
  isVerified : Bool
  registrationTime : Nat
deriving DecidableEq

/-- Source `struct NewsPost`. -/
structure NewsPost where
  id : Nat
  author : Addr
  contentHash : String
  metadataHash : String
  timestamp : Nat
  category : String
  likes : Nat
  comments : Nat
  moderationStatus : ModerationStatus
deriving DecidableEq

/-- Source `struct Comment`. -/
structure Comment where
  id : Nat
  postId : Nat
  author : Addr
  content : String
  timestamp : Nat
  moderationStatus : ModerationStatus
deriving DecidableEq

/-- Source `struct Proposal`. -/
structure Proposal where
  id : Nat
  proposer : Addr
  proposalType : ProposalType
  data : ProposalData
  startTime : Nat
  endTime : Nat
  forVotes : Nat
  againstVotes : Nat
  status : ProposalStatus
  descriptionHash : String
deriving DecidableEq

/-- Source `struct ModerationVote`. -/
structure ModerationVote where
  proposalId : Nat
  postId : Nat
  startTime : Nat
  endTime : Nat
  forRemovalVotes : Nat
  againstRemovalVotes : Nat
  executed : Bool
deriving DecidableEq

/-- Zero-initialised `UserProfile`, the value an untouched mapping slot holds. -/
def defaultProfile : UserProfile :=
  { userAddress := 0, username := "", metadataHash := "", userType := .Individual
    isVerified := false, registrationTime := 0 }

/-- Zero-initialised `NewsPost`. -/
def defaultPost : NewsPost :=
  { id := 0, author := 0, contentHash := "", metadataHash := "", timestamp := 0
    category := "", likes := 0, comments := 0, moderationStatus := .None }

/-- Zero-initialised `Proposal` (note: enum zero values are
`ProposalType.RemoveContent` and `ProposalStatus.Active`). -/
def defaultProposal : Proposal :=
  { id := 0, proposer := 0, proposalType := .RemoveContent, data := .empty
    startTime := 0, endTime := 0, forVotes := 0, againstVotes := 0
    status := .Active, descriptionHash := "" }

/-- Zero-initialised `ModerationVote`. -/
def defaultModerationVote : ModerationVote :=
  { proposalId := 0, postId := 0, startTime := 0, endTime := 0
    forRemovalVotes := 0, againstRemovalVotes := 0, executed := false }

/-- Typed revert reasons, one per `require` / `revert` string in the contract
(plus the implicit reverts of `onlyRole` and `abi.decode`). -/
inductive Err where
  | unauthorized
  | alreadyRegistered
  | userNotRegistered
  | alreadyVerified
  | postNotFound
  | alreadyLiked
  | notLiked
  | contentAlreadyFlaggedOrUnderReview
  | contentNotFlagged
  | proposalNotFound
  | proposalNotActive
  | votingPeriodEnded
  | alreadyVoted
  | voteNotFound
  | voteAlreadyExecuted
  | votingPeriodNotEnded
  | cannotFollowSelf
  | followTargetNotRegistered
  | alreadyFollowing
  | renounceOnlyForSelf
  | decodeFailed
deriving DecidableEq

/-- The whole storage of the `DeNewsContent` contract. -/
structure State where
  users : Addr → UserProfile
  posts : Nat → NewsPost
  postComments : Nat → List Comment
  userPosts : Addr → List Nat
  following : Addr → List Addr
  postLikes : Nat → Addr → Bool
  proposals : Nat → Proposal
  hasVoted : Nat → Addr → Bool
  moderationVotes : Nat → ModerationVote
  postIdCounter : Nat
  commentIdCounter : Nat
  proposalIdCounter : Nat
  flagThreshold : Nat
  voteDuration : Nat
  quorumPercentage : Nat
  roles : RoleId → Addr → Bool

/-- Pointwise update of a mapping. -/
def updf {α : Type} (f : Nat → α) (k : Nat) (v : α) : Nat → α :=
  fun x => if x = k then v else f x

/-- The contract state right after the constructor ran with deployer
`msg.sender = deployer`: parameters at their declared initial values and
`DEFAULT_ADMIN_ROLE` / `ADMIN_ROLE` granted to the deployer. -/
def initState (deployer : Addr) : State :=
  { users := fun _ => defaultProfile
    posts := fun _ => defaultPost
    postComments := fun _ => []
    userPosts := fun _ => []
    following := fun _ => []
    postLikes := fun _ _ => false
    proposals := fun _ => defaultProposal
    hasVoted := fun _ _ => false
    moderationVotes := fun _ => defaultModerationVote
    postIdCounter := 0
    commentIdCounter := 0
    proposalIdCounter := 0
    flagThreshold := 3
    voteDuration := 259200      -- 3 days in seconds
    quorumPercentage := 10
    roles := fun r a =>
      if a = deployer ∧ (r = DEFAULT_ADMIN_ROLE ∨ r = ADMIN_ROLE) then true else false }


/-- Source `registerUser(username, metadataHash, userType)` (source lines 213-226). -/
def registerUser (s : State) (caller : Addr) (username metadataHash : String)
    (userType : UserType) (t : Nat) : Except Err State :=
  if (s.users caller).registrationTime = 0 then
    let profile : UserProfile :=
      { userAddress := caller, username := username, metadataHash := metadataHash
        userType := userType, isVerified := false, registrationTime := t }
    .ok { s with users := updf s.users caller profile }
  else .error .alreadyRegistered

/-- Source `verifyUser(userAddress)` (source lines 232-239). -/
def verifyUser (s : State) (caller target : Addr) : Except Err State :=
  if s.roles MODERATOR_ROLE caller = false then .error .unauthorized
  else if (s.users target).registrationTime = 0 then .error .userNotRegistered
  else if (s.users target).isVerified then .error .alreadyVerified
  else
    let profile := { s.users target with isVerified := true }
    .ok { s with users := updf s.users target profile }

/-- Source `createPost(contentHash, metadataHash, category)` (source lines 248-271). -/
def createPost (s : State) (caller : Addr) (contentHash metadataHash category : String)
    (t : Nat) : Except Err State :=
  if (s.users caller).registrationTime = 0 then .error .userNotRegistered
  else
    let postId := s.postIdCounter
    let post : NewsPost :=
      { id := postId, author := caller, contentHash := contentHash
        metadataHash := metadataHash, timestamp := t, category := category
        likes := 0, comments := 0, moderationStatus := .None }
    .ok { s with
          posts := updf s.posts postId post
          userPosts := updf s.userPosts caller (s.userPosts caller ++ [postId])
          postIdCounter := postId + 1 }

/-- Source `likePost(postId)` (source lines 277-285). -/
def likePost (s : State) (caller : Addr) (postId : Nat) : Except Err State :=
  if (s.posts postId).author = 0 then .error .postNotFound
  else if s.postLikes postId caller then .error .alreadyLiked
  else
    let post := { s.posts postId with likes := (s.posts postId).likes + 1 }
    .ok { s with
          postLikes := updf s.postLikes postId (updf (s.postLikes postId) caller true)
          posts := updf s.posts postId post }

/-- Source `unlikePost(postId)` (source lines 291-299). -/
def unlikePost (s : State) (caller : Addr) (postId : Nat) : Except Err State :=
  if (s.posts postId).author = 0 then .error .postNotFound
  else if s.postLikes postId caller = false then .error .notLiked
  else
    let post := { s.posts postId with likes := (s.posts postId).likes - 1 }
    .ok { s with
          postLikes := updf s.postLikes postId (updf (s.postLikes postId) caller false)
          posts := updf s.posts postId post }

/-- Source `addComment(postId, content)` (source lines 307-329). -/
def addComment (s : State) (caller : Addr) (postId : Nat) (content : String)
    (t : Nat) : Except Err State :=
  if (s.posts postId).author = 0 then .error .postNotFound
  else if (s.users caller).registrationTime = 0 then .error .userNotRegistered
  else
    let commentId := s.commentIdCounter
    let c : Comment :=
      { id := commentId, postId := postId, author := caller, content := content
        timestamp := t, moderationStatus := .None }
    let post := { s.posts postId with comments := (s.posts postId).comments + 1 }
    .ok { s with
          postComments := updf s.postComments postId (s.postComments postId ++ [c])
          posts := updf s.posts postId post
          commentIdCounter := commentId + 1 }

/-- Source `flagContent(postId)` (source lines 335-347). -/
def flagContent (s : State) (caller : Addr) (postId : Nat) : Except Err State :=
  if (s.posts postId).author = 0 then .error .postNotFound
  else if (s.users caller).registrationTime = 0 then .error .userNotRegistered
  else if (s.posts postId).moderationStatus ≠ .None then
    .error .contentAlreadyFlaggedOrUnderReview
  else
    let post := { s.posts postId with moderationStatus := .Flagged }
    .ok { s with posts := updf s.posts postId post }

/-- Source `startModerationVote(postId)` (source lines 353-393). -/
def startModerationVote (s : State) (caller : Addr) (postId : Nat) (t : Nat) :
    Except Err State :=
  if s.roles MODERATOR_ROLE caller = false then .error .unauthorized
  else if (s.posts postId).author = 0 then .error .postNotFound
  else if (s.posts postId).moderationStatus ≠ .Flagged then .error .contentNotFlagged
  else
    let proposalId := s.proposalIdCounter
    let prop : Proposal :=
      { id := proposalId, proposer := caller, proposalType := .RemoveContent
        data := .uintData postId, startTime := t, endTime := t + s.voteDuration
        forVotes := 0, againstVotes := 0, status := .Active, descriptionHash := "" }
    let mv : ModerationVote :=
      { proposalId := proposalId, postId := postId, startTime := t
        endTime := t + s.voteDuration, forRemovalVotes := 0
        againstRemovalVotes := 0, executed := false }
    let post := { s.posts postId with moderationStatus := .UnderVote }
    .ok { s with
          proposals := updf s.proposals proposalId prop
          moderationVotes := updf s.moderationVotes postId mv
          posts := updf s.posts postId post
          proposalIdCounter := proposalId + 1 }

/-- Source `castModerationVote(proposalId, support, voteWeight)` (source lines 401-431). -/
def castModerationVote (s : State) (caller : Addr) (proposalId : Nat)
    (support : Bool) (voteWeight : Nat) (t : Nat) : Except Err State :=
  if (s.proposals proposalId).id ≠ proposalId then .error .proposalNotFound
  else if (s.proposals proposalId).status ≠ .Active then .error .proposalNotActive
  else if ¬ t < (s.proposals proposalId).endTime then .error .votingPeriodEnded
  else if s.hasVoted proposalId caller then .error .alreadyVoted
  else if (s.users caller).registrationTime = 0 then .error .userNotRegistered
  else
    let p := s.proposals proposalId
    let p' := if support then { p with forVotes := p.forVotes + voteWeight }
              else { p with againstVotes := p.againstVotes + voteWeight }
    let s1 : State :=
      { s with
        hasVoted := updf s.hasVoted proposalId (updf (s.hasVoted proposalId) caller true)
        proposals := updf s.proposals proposalId p' }
    if p.proposalType = .RemoveContent then
      match decodeUint p.data with
      | none => .error .decodeFailed
      | some postId =>
        let v := s1.moderationVotes postId
        let v' := if support then
                    { v with forRemovalVotes := v.forRemovalVotes + voteWeight }
                  else
                    { v with againstRemovalVotes := v.againstRemovalVotes + voteWeight }
        .ok { s1 with moderationVotes := updf s1.moderationVotes postId v' }
    else .ok s1

/-- The pass condition shared by both execution entry points:
simplified quorum `forVotes + againstVotes > 0` together with strict
majority `forVotes > againstVotes` (source lines 449, 454 and 511, 513). -/
def passCond (p : Proposal) : Prop :=
  p.forVotes + p.againstVotes > 0 ∧ p.forVotes > p.againstVotes

instance (p : Proposal) : Decidable (passCond p) := by
  unfold passCond; infer_instance

/-- Source `executeModerationVote(postId)` (source lines 437-467). -/
def executeModerationVote (s : State) (postId : Nat) (t : Nat) : Except Err State :=
  let v := s.moderationVotes postId
  if v.postId ≠ postId then .error .voteNotFound
  else if v.executed then .error .voteAlreadyExecuted
  else if t < v.endTime then .error .votingPeriodNotEnded
  else
    let p := s.proposals v.proposalId
    let v' := { v with executed := true }
    if passCond p then
      let post := { s.posts postId with moderationStatus := .Removed }
      .ok { s with
            moderationVotes := updf s.moderationVotes postId v'
            posts := updf s.posts postId post
            proposals := updf s.proposals v.proposalId { p with status := .Executed } }
    else
      let post := { s.posts postId with moderationStatus := .None }
      .ok { s with
            moderationVotes := updf s.moderationVotes postId v'
            posts := updf s.posts postId post
            proposals := updf s.proposals v.proposalId { p with status := .Rejected } }

/-- Source `createProposal(proposalType, data, descriptionHash)` (source lines 476-498). -/
def createProposal (s : State) (caller : Addr) (proposalType : ProposalType)
    (data : ProposalData) (descriptionHash : String) (t : Nat) : Except Err State :=
  if (s.users caller).registrationTime = 0 then .error .userNotRegistered
  else
    let proposalId := s.proposalIdCounter
    let prop : Proposal :=
      { id := proposalId, proposer := caller, proposalType := proposalType
        data := data, startTime := t, endTime := t + s.voteDuration
        forVotes := 0, againstVotes := 0, status := .Active
        descriptionHash := descriptionHash }
    .ok { s with
          proposals := updf s.proposals proposalId prop
          proposalIdCounter := proposalId + 1 }

/-- Internal `_grantRole` / `_revokeRole`: set one entry of the role relation. -/
def setRole (roles : RoleId → Addr → Bool) (r : RoleId) (acct : Addr) (b : Bool) :
    RoleId → Addr → Bool :=
  updf roles r (fun x => if x = acct then b else roles r x)

/-- Source `executeProposal(proposalId)` (lines 504-548), with the
kind-specific `if/else if` effect chain (lines 515-539) inlined.  Note
that `ProposalType.RemoveContent` has no branch in that chain, so a
passing RemoveContent proposal only has its status set. -/
def executeProposal (s : State) (proposalId : Nat) (t : Nat) : Except Err State :=
  let p := s.proposals proposalId
  if p.id ≠ proposalId then .error .proposalNotFound
  else if p.status ≠ .Active then .error .proposalNotActive
  else if t < p.endTime then .error .votingPeriodNotEnded
  else if passCond p then
    let pExec := { p with status := ProposalStatus.Executed }
    match p.proposalType with
    | .UpdateParameters =>
      match decodeStringUint p.data with
      | none => .error .decodeFailed
      | some (paramName, newValue) =>
        if paramName = "flagThreshold" then
          .ok { s with flagThreshold := newValue
                       proposals := updf s.proposals proposalId pExec }
        else if paramName = "voteDuration" then
          .ok { s with voteDuration := newValue
                       proposals := updf s.proposals proposalId pExec }
        else if paramName = "quorumPercentage" then
          .ok { s with quorumPercentage := newValue
                       proposals := updf s.proposals proposalId pExec }
        else
          .ok { s with proposals := updf s.proposals proposalId pExec }
    | .GrantRole =>
      match decodeRoleAddr p.data with
      | none => .error .decodeFailed
      | some (role, account) =>
        .ok { s with roles := setRole s.roles role account true
                     proposals := updf s.proposals proposalId pExec }
    | .RevokeRole =>
      match decodeRoleAddr p.data with
      | none => .error .decodeFailed
      | some (role, account) =>
        .ok { s with roles := setRole s.roles role account false
                     proposals := updf s.proposals proposalId pExec }
    | .RemoveContent =>
      .ok { s with proposals := updf s.proposals proposalId pExec }
  else
    .ok { s with proposals := updf s.proposals proposalId { p with status := .Rejected } }

/-- Source `followUser(userToFollow)` (source lines 554-569). -/
def followUser (s : State) (caller target : Addr) : Except Err State :=
  if target = caller then .error .cannotFollowSelf
  else if (s.users target).registrationTime = 0 then .error .followTargetNotRegistered
  else if (s.users caller).registrationTime = 0 then .error .userNotRegistered
  else if target ∈ s.following caller then .error .alreadyFollowing
  else .ok { s with following := updf s.following caller (s.following caller ++ [target]) }

/-- OpenZeppelin `AccessControl.grantRole(role, account)`: the caller must
hold the role's admin role, which is `DEFAULT_ADMIN_ROLE` for every role
in this contract. -/
def grantRole (s : State) (caller : Addr) (role : RoleId) (account : Addr) :
    Except Err State :=
  if s.roles DEFAULT_ADMIN_ROLE caller = false then .error .unauthorized
  else .ok { s with roles := setRole s.roles role account true }

/-- OpenZeppelin `AccessControl.revokeRole(role, account)`. -/
def revokeRole (s : State) (caller : Addr) (role : RoleId) (account : Addr) :
    Except Err State :=
  if s.roles DEFAULT_ADMIN_ROLE caller = false then .error .unauthorized
  else .ok { s with roles := setRole s.roles role account false }

/-- OpenZeppelin `AccessControl.renounceRole(role, account)`: only for self. -/
def renounceRole (s : State) (caller : Addr) (role : RoleId) (account : Addr) :
    Except Err State :=
  if account ≠ caller then .error .renounceOnlyForSelf
  else .ok { s with roles := setRole s.roles role account false }

/-- One external transaction: the entry point together with its caller,
arguments and the `block.timestamp` at which it runs. -/
inductive Op where
  | registerUser (caller : Addr) (username metadataHash : String)
      (userType : UserType) (t : Nat)
  | verifyUser (caller target : Addr)
  | createPost (caller : Addr) (contentHash metadataHash category : String) (t : Nat)
  | likePost (caller : Addr) (postId : Nat)
  | unlikePost (caller : Addr) (postId : Nat)
  | addComment (caller : Addr) (postId : Nat) (content : String) (t : Nat)
  | flagContent (caller : Addr) (postId : Nat)
  | startModerationVote (caller : Addr) (postId : Nat) (t : Nat)
  | castModerationVote (caller : Addr) (proposalId : Nat) (support : Bool)
      (voteWeight : Nat) (t : Nat)
  | executeModerationVote (caller : Addr) (postId : Nat) (t : Nat)
  | createProposal (caller : Addr) (proposalType : ProposalType)
      (data : ProposalData) (descriptionHash : String) (t : Nat)
  | executeProposal (caller : Addr) (proposalId : Nat) (t : Nat)
  | followUser (caller target : Addr)
  | grantRole (caller : Addr) (role : RoleId) (account : Addr)
  | revokeRole (caller : Addr) (role : RoleId) (account : Addr)
  | renounceRole (caller : Addr) (role : RoleId) (account : Addr)

/-- Dispatch a transaction to its entry point. -/
def execOp (s : State) : Op → Except Err State
  | .registerUser c u m ut t => registerUser s c u m ut t
  | .verifyUser c tg => verifyUser s c tg
  | .createPost c ch mh cat t => createPost s c ch mh cat t
  | .likePost c p => likePost s c p
  | .unlikePost c p => unlikePost s c p
  | .addComment c p content t => addComment s c p content t
  | .flagContent c p => flagContent s c p
  | .startModerationVote c p t => startModerationVote s c p t
  | .castModerationVote c pid sup w t => castModerationVote s c pid sup w t
  | .executeModerationVote _ p t => executeModerationVote s p t
  | .createProposal c pt d dh t => createProposal s c pt d dh t
  | .executeProposal _ pid t => executeProposal s pid t
  | .followUser c tg => followUser s c tg
  | .grantRole c r a => grantRole s c r a
  | .revokeRole c r a => revokeRole s c r a
  | .renounceRole c r a => renounceRole s c r a

/-- A reverted transaction leaves the state unchanged. -/
def applyOp (s : State) (op : Op) : State :=
  match execOp s op with
  | .ok s' => s'
  | .error _ => s

/-- Run a sequence of transactions. -/
def run (s : State) (ops : List Op) : State :=
  ops.foldl applyOp s


/-! ### Derived definitions used by the correctness statements -/

/-- The shared pass predicate, restated for a *status* write: a proposal's
terminal status is consistent with its (frozen) tallies.  Both execution
entry points decide `Executed` vs `Rejected` by exactly `passCond`, so
this is an invariant of every reachable state. -/
def statusConsistent (s : State) : Prop :=
  ∀ pid, ((s.proposals pid).status = .Executed → passCond (s.proposals pid)) ∧
         ((s.proposals pid).status = .Rejected → ¬ passCond (s.proposals pid))

/-- The set of identities a boolean membership function declares true. -/
def likersF (f : Addr → Bool) : Set Addr :=
  {a : Addr | f a = true}

/-- The set of identities whose like record for post `p` is true. -/
def likersOf (s : State) (p : Nat) : Set Addr :=
  likersF (s.postLikes p)

/-- The like-count invariant: every post's `likes` field equals the number
of true like records for it; a true like record implies the post exists;
slots at or above the post counter are untouched. -/
def likeInv (s : State) : Prop :=
  (∀ p, (likersOf s p).Finite ∧ (s.posts p).likes = (likersOf s p).ncard) ∧
  (∀ p a, s.postLikes p a = true → (s.posts p).author ≠ 0) ∧
  (∀ p, s.postIdCounter ≤ p → (s.posts p).author = 0 ∧ ∀ a, s.postLikes p a = false)

/-- The follow invariant: nobody follows themselves and no following list
contains duplicates. -/
def followInv (s : State) : Prop :=
  ∀ u, u ∉ s.following u ∧ (s.following u).Nodup

/-! ### Concrete transaction sequences used below -/

/-- Deployer `1` makes itself a moderator, registers, posts, flags the
post, starts the moderation vote and casts a for-removal vote of weight 5
on the linked proposal (proposal 0). -/
def moderationScenario : List Op :=
  [ .grantRole 1 MODERATOR_ROLE 1
  , .registerUser 1 "" "" .Individual 1
  , .createPost 1 "" "" "" 1
  , .flagContent 1 0
  , .startModerationVote 1 0 1
  , .castModerationVote 1 0 true 5 2 ]

/-- Scenario `moderationScenario` followed by `executeProposal` on the (passing)
RemoveContent proposal after its deadline. -/
def execProposalScenario : List Op :=
  moderationScenario ++ [.executeProposal 1 0 259201]

/-- A registered user, a post with status `None`, a governance proposal of
kind `GrantRole` (id 0) and a favourable vote of weight 5 on it.  No
moderation vote is ever started. -/
def phantomScenario : List Op :=
  [ .registerUser 1 "" "" .Individual 1
  , .createPost 1 "" "" "" 1
  , .createProposal 1 .GrantRole (.roleAddrData 5 5) "" 1
  , .castModerationVote 1 0 true 5 2 ]

/-- Scenario `phantomScenario` followed by `executeModerationVote(0)`, which
succeeds against the never-created default vote record at post id 0. -/
def phantomExecScenario : List Op :=
  phantomScenario ++ [.executeModerationVote 1 0 2]

/-- A moderation vote on post 0 (proposal 0), then a second RemoveContent
proposal (id 1) created through `createProposal` carrying the same post id
as payload, and a for-removal vote of weight 10 cast on proposal 1. -/
def rogueScenario : List Op :=
  [ .grantRole 1 MODERATOR_ROLE 1
  , .registerUser 1 "" "" .Individual 1
  , .createPost 1 "" "" "" 1
  , .flagContent 1 0
  , .startModerationVote 1 0 1
  , .createProposal 1 .RemoveContent (.uintData 0) "" 1
  , .castModerationVote 1 1 true 10 2 ]

/-- Scenario `rogueScenario` followed by `executeModerationVote(0)` after the
deadline. -/
def rogueExecScenario : List Op :=
  rogueScenario ++ [.executeModerationVote 1 0 259201]

/-- A registered user creates a proposal that is executed with no votes
cast, hence rejected: yields a terminal proposal 0. -/
def rejectedScenario : List Op :=
  [ .registerUser 1 "" "" .Individual 1
  , .createProposal 1 .GrantRole (.roleAddrData 5 5) "" 1
  , .executeProposal 1 0 259201 ]

/-- Two registered users; user 1 follows user 2. -/
def followScenario : List Op :=
  [ .registerUser 1 "" "" .Individual 1
  , .registerUser 2 "" "" .Individual 1
  , .followUser 1 2 ]

/-- A registered user likes their own post. -/
def likeScenario : List Op :=
  [ .registerUser 1 "" "" .Individual 1
  , .createPost 1 "" "" "" 1
  , .likePost 1 0 ]

/-- The moderation-vote setup without any cast (used to execute a vote
whose tallies are zero). -/
def startedVoteScenario : List Op :=
  [ .grantRole 1 MODERATOR_ROLE 1
  , .registerUser 1 "" "" .Individual 1
  , .createPost 1 "" "" "" 1
  , .flagContent 1 0
  , .startModerationVote 1 0 1 ]

/-- Scenario `startedVoteScenario` with its moderation vote executed (zero
tallies, so the post returns to `None` and the proposal is rejected). -/
def startedVoteExec : List Op :=
  startedVoteScenario ++ [Op.executeModerationVote 1 0 259201]

/-! ### Basic lemmas -/

@[simp] theorem updf_same {α : Type} (f : Nat → α) (k : Nat) (v : α) :
    updf f k v k = v := by
  simp [updf]

@[simp] theorem updf_other {α : Type} (f : Nat → α) (k x : Nat) (v : α)
    (h : x ≠ k) : updf f k v x = f x := by
  simp [updf, h]

theorem run_nil (s : State) : run s [] = s := rfl

theorem run_cons (s : State) (op : Op) (ops : List Op) :
    run s (op :: ops) = run (applyOp s op) ops := rfl

/-! ### Inversion lemmas: what a successful call implies -/

/-- Successful `registerUser`: the caller was unregistered and exactly the
profile slot is written. -/
theorem registerUser_ok (s : State) (c : Addr) (u m : String) (ut : UserType)
    (t : Nat) (s1 : State) (h : registerUser s c u m ut t = .ok s1) :
    (s.users c).registrationTime = 0 ∧
    s1 = { s with users := updf s.users c (UserProfile.mk c u m ut false t) } := by
  simp only [registerUser] at h
  repeat' split at h
  all_goals (try exact Except.noConfusion h)
  all_goals (simp only [Except.ok.injEq] at h; subst h; simp_all)

/-- Successful `verifyUser`: caller is a moderator, target registered and
unverified; only the target's `isVerified` flag is written. -/
theorem verifyUser_ok (s : State) (c tg : Addr) (s1 : State)
    (h : verifyUser s c tg = .ok s1) :
    s.roles MODERATOR_ROLE c = true ∧ (s.users tg).registrationTime ≠ 0 ∧
    (s.users tg).isVerified = false ∧
    s1 = { s with users := updf s.users tg ({ s.users tg with isVerified := true }) } := by
  simp only [verifyUser] at h
  repeat' split at h
  all_goals (try exact Except.noConfusion h)
  all_goals (simp only [Except.ok.injEq] at h; subst h; simp_all)

/-- Successful `createPost`: the author is registered; a fresh post is
allocated at the current counter. -/
theorem createPost_ok (s : State) (c : Addr) (ch mh cat : String) (t : Nat)
    (s1 : State) (h : createPost s c ch mh cat t = .ok s1) :
    (s.users c).registrationTime ≠ 0 ∧
    s1 = { s with
           posts := updf s.posts s.postIdCounter
             (NewsPost.mk s.postIdCounter c ch mh t cat 0 0 .None)
           userPosts := updf s.userPosts c (s.userPosts c ++ [s.postIdCounter])
           postIdCounter := s.postIdCounter + 1 } := by
  simp only [createPost] at h
  repeat' split at h
  all_goals (try exact Except.noConfusion h)
  all_goals (simp only [Except.ok.injEq] at h; subst h; simp_all)

/-- Successful `likePost`: the post exists and was not yet liked by the
caller; the like record and the counter are written in lock-step. -/
theorem likePost_ok (s : State) (c : Addr) (p : Nat) (s1 : State)
    (h : likePost s c p = .ok s1) :
    (s.posts p).author ≠ 0 ∧ s.postLikes p c = false ∧
    s1 = { s with
           postLikes := updf s.postLikes p (updf (s.postLikes p) c true)
           posts := updf s.posts p ({ s.posts p with likes := (s.posts p).likes + 1 }) } := by
  simp only [likePost] at h
  repeat' split at h
  all_goals (try exact Except.noConfusion h)
  all_goals (simp only [Except.ok.injEq] at h; subst h; simp_all)

/-- Successful `unlikePost`. -/
theorem unlikePost_ok (s : State) (c : Addr) (p : Nat) (s1 : State)
    (h : unlikePost s c p = .ok s1) :
    (s.posts p).author ≠ 0 ∧ s.postLikes p c = true ∧
    s1 = { s with
           postLikes := updf s.postLikes p (updf (s.postLikes p) c false)
           posts := updf s.posts p ({ s.posts p with likes := (s.posts p).likes - 1 }) } := by
  simp only [unlikePost] at h
  repeat' split at h
  all_goals (try exact Except.noConfusion h)
  all_goals (simp only [Except.ok.injEq] at h; subst h; simp_all)

/-- Successful `addComment`. -/
theorem addComment_ok (s : State) (c : Addr) (p : Nat) (content : String)
    (t : Nat) (s1 : State) (h : addComment s c p content t = .ok s1) :
    (s.posts p).author ≠ 0 ∧ (s.users c).registrationTime ≠ 0 ∧
    s1 = { s with
           postComments := updf s.postComments p
             (s.postComments p ++ [Comment.mk s.commentIdCounter p c content t .None])
           posts := updf s.posts p
             ({ s.posts p with comments := (s.posts p).comments + 1 })
           commentIdCounter := s.commentIdCounter + 1 } := by
  simp only [addComment] at h
  repeat' split at h
  all_goals (try exact Except.noConfusion h)
  all_goals (simp only [Except.ok.injEq] at h; subst h; simp_all)

/-- Successful `flagContent`: post exists, flagger registered, status was
`None`; only the status is written. -/
theorem flagContent_ok (s : State) (c : Addr) (p : Nat) (s1 : State)
    (h : flagContent s c p = .ok s1) :
    (s.posts p).author ≠ 0 ∧ (s.users c).registrationTime ≠ 0 ∧
    (s.posts p).moderationStatus = .None ∧
    s1 = { s with posts := updf s.posts p ({ s.posts p with moderationStatus := .Flagged }) } := by
  simp only [flagContent] at h
  repeat' split at h
  all_goals (try exact Except.noConfusion h)
  all_goals (simp only [Except.ok.injEq] at h; subst h; simp_all)

/-- Successful `startModerationVote`: caller is a moderator, the post is
`Flagged`; a fresh RemoveContent proposal and a fresh vote record are
allocated and the post moves to `UnderVote`. -/
theorem startModerationVote_ok (s : State) (c : Addr) (p t : Nat) (s1 : State)
    (h : startModerationVote s c p t = .ok s1) :
    s.roles MODERATOR_ROLE c = true ∧ (s.posts p).author ≠ 0 ∧
    (s.posts p).moderationStatus = .Flagged ∧
    s1 = { s with
           proposals := updf s.proposals s.proposalIdCounter
             (Proposal.mk s.proposalIdCounter c .RemoveContent (.uintData p) t
               (t + s.voteDuration) 0 0 .Active "")
           moderationVotes := updf s.moderationVotes p
             (ModerationVote.mk s.proposalIdCounter p t (t + s.voteDuration) 0 0 false)
           posts := updf s.posts p
             ({ s.posts p with moderationStatus := .UnderVote })
           proposalIdCounter := s.proposalIdCounter + 1 } := by
  simp only [startModerationVote] at h
  repeat' split at h
  all_goals (try exact Except.noConfusion h)
  all_goals (simp only [Except.ok.injEq] at h; subst h; simp_all)

/-- Successful `createProposal`: the proposer is registered; a fresh
`Active` proposal is allocated at the current counter. -/
theorem createProposal_ok (s : State) (c : Addr) (pt : ProposalType)
    (d : ProposalData) (dh : String) (t : Nat) (s1 : State)
    (h : createProposal s c pt d dh t = .ok s1) :
    (s.users c).registrationTime ≠ 0 ∧
    s1 = { s with
           proposals := updf s.proposals s.proposalIdCounter
             (Proposal.mk s.proposalIdCounter c pt d t (t + s.voteDuration) 0 0 .Active dh)
           proposalIdCounter := s.proposalIdCounter + 1 } := by
  simp only [createProposal] at h
  repeat' split at h
  all_goals (try exact Except.noConfusion h)
  all_goals (simp only [Except.ok.injEq] at h; subst h; simp_all)

/-- Successful `followUser`: all four guards held and exactly one entry is
appended to the caller's following list. -/
theorem followUser_ok (s : State) (c tg : Addr) (s1 : State)
    (h : followUser s c tg = .ok s1) :
    tg ≠ c ∧ (s.users tg).registrationTime ≠ 0 ∧
    (s.users c).registrationTime ≠ 0 ∧ tg ∉ s.following c ∧
    s1 = { s with following := updf s.following c (s.following c ++ [tg]) } := by
  simp only [followUser] at h
  repeat' split at h
  all_goals (try exact Except.noConfusion h)
  all_goals (simp only [Except.ok.injEq] at h; subst h; simp_all)

/-- Successful `grantRole`. -/
theorem grantRole_ok (s : State) (c : Addr) (r : RoleId) (a : Addr) (s1 : State)
    (h : grantRole s c r a = .ok s1) :
    s.roles DEFAULT_ADMIN_ROLE c = true ∧
    s1 = { s with roles := setRole s.roles r a true } := by
  simp only [grantRole] at h
  repeat' split at h
  all_goals (try exact Except.noConfusion h)
  all_goals (simp only [Except.ok.injEq] at h; subst h; simp_all)

/-- Successful `revokeRole`. -/
theorem revokeRole_ok (s : State) (c : Addr) (r : RoleId) (a : Addr) (s1 : State)
    (h : revokeRole s c r a = .ok s1) :
    s.roles DEFAULT_ADMIN_ROLE c = true ∧
    s1 = { s with roles := setRole s.roles r a false } := by
  simp only [revokeRole] at h
  repeat' split at h
  all_goals (try exact Except.noConfusion h)
  all_goals (simp only [Except.ok.injEq] at h; subst h; simp_all)

/-- Successful `renounceRole`. -/
theorem renounceRole_ok (s : State) (c : Addr) (r : RoleId) (a : Addr) (s1 : State)
    (h : renounceRole s c r a = .ok s1) :
    a = c ∧ s1 = { s with roles := setRole s.roles r a false } := by
  simp only [renounceRole] at h
  repeat' split at h
  all_goals (try exact Except.noConfusion h)
  all_goals (simp only [Except.ok.injEq] at h; subst h; simp_all)

/-- Successful `castModerationVote`: all five guards held; the vote is
recorded, weight is added to one tally, and when (and only when) the
proposal kind is `RemoveContent`, the same weight is mirrored into the
`ModerationVote` record keyed by the decoded payload post id. -/
theorem castModerationVote_ok (s : State) (c : Addr) (pid : Nat) (sup : Bool)
    (w t : Nat) (s1 : State)
    (h : castModerationVote s c pid sup w t = .ok s1) :
    (s.proposals pid).id = pid ∧ (s.proposals pid).status = .Active ∧
    t < (s.proposals pid).endTime ∧ s.hasVoted pid c = false ∧
    (s.users c).registrationTime ≠ 0 ∧
    s1.users = s.users ∧ s1.posts = s.posts ∧ s1.postComments = s.postComments ∧
    s1.userPosts = s.userPosts ∧ s1.following = s.following ∧
    s1.postLikes = s.postLikes ∧
    s1.postIdCounter = s.postIdCounter ∧ s1.commentIdCounter = s.commentIdCounter ∧
    s1.proposalIdCounter = s.proposalIdCounter ∧ s1.flagThreshold = s.flagThreshold ∧
    s1.voteDuration = s.voteDuration ∧ s1.quorumPercentage = s.quorumPercentage ∧
    s1.roles = s.roles ∧
    s1.hasVoted = updf s.hasVoted pid (updf (s.hasVoted pid) c true) ∧
    s1.proposals = updf s.proposals pid
      (if sup then { s.proposals pid with forVotes := (s.proposals pid).forVotes + w }
       else { s.proposals pid with againstVotes := (s.proposals pid).againstVotes + w }) ∧
    ((s.proposals pid).proposalType ≠ .RemoveContent → s1.moderationVotes = s.moderationVotes) ∧
    (∀ q, (s.proposals pid).proposalType = .RemoveContent →
       decodeUint (s.proposals pid).data = some q →
       s1.moderationVotes = updf s.moderationVotes q
         (if sup then
            { s.moderationVotes q with
              forRemovalVotes := (s.moderationVotes q).forRemovalVotes + w }
          else
            { s.moderationVotes q with
              againstRemovalVotes := (s.moderationVotes q).againstRemovalVotes + w })) := by
  simp only [castModerationVote] at h
  repeat' split at h
  all_goals (try exact Except.noConfusion h)
  all_goals (simp only [Except.ok.injEq] at h; subst h; simp_all)

/-- Successful `executeModerationVote`: the vote record matched, was not
executed, its deadline passed; the record is marked executed, and the
post / linked proposal are written according to the *linked proposal's*
tallies. -/
theorem executeModerationVote_ok (s : State) (p t : Nat) (s1 : State)
    (h : executeModerationVote s p t = .ok s1) :
    (s.moderationVotes p).postId = p ∧
    (s.moderationVotes p).executed = false ∧
    (s.moderationVotes p).endTime ≤ t ∧
    s1 = { s with
           moderationVotes := updf s.moderationVotes p
             ({ s.moderationVotes p with executed := true })
           posts := updf s.posts p
             ({ s.posts p with moderationStatus := if passCond (s.proposals (s.moderationVotes p).proposalId) then .Removed else .None })
           proposals := updf s.proposals (s.moderationVotes p).proposalId
             ({ s.proposals (s.moderationVotes p).proposalId with status := if passCond (s.proposals (s.moderationVotes p).proposalId) then .Executed else .Rejected }) } := by
  simp only [executeModerationVote] at h
  repeat' split at h
  all_goals (try exact Except.noConfusion h)
  all_goals (simp only [Except.ok.injEq] at h; subst h; simp_all; try omega)

/-- Successful `executeProposal`: the proposal existed, was `Active`, its
deadline passed; its status becomes `Executed` exactly when the pass
condition holds (else `Rejected`); posts, votes and proposals other than
`pid` are untouched (only parameters / roles may additionally change). -/
theorem executeProposal_ok (s : State) (pid t : Nat) (s1 : State)
    (h : executeProposal s pid t = .ok s1) :
    (s.proposals pid).id = pid ∧ (s.proposals pid).status = .Active ∧
    (s.proposals pid).endTime ≤ t ∧
    s1.users = s.users ∧ s1.posts = s.posts ∧ s1.postComments = s.postComments ∧
    s1.userPosts = s.userPosts ∧ s1.following = s.following ∧
    s1.postLikes = s.postLikes ∧ s1.hasVoted = s.hasVoted ∧
    s1.moderationVotes = s.moderationVotes ∧
    s1.postIdCounter = s.postIdCounter ∧ s1.commentIdCounter = s.commentIdCounter ∧
    s1.proposalIdCounter = s.proposalIdCounter ∧
    s1.proposals = updf s.proposals pid
      ({ s.proposals pid with status := if passCond (s.proposals pid) then .Executed else .Rejected }) := by
  simp only [executeProposal] at h
  repeat' split at h
  all_goals (try exact Except.noConfusion h)
  all_goals (simp only [Except.ok.injEq] at h; subst h; simp_all; try omega)


/-! ### The proposal counter never decreases -/

theorem counter_mono (s : State) (op : Op) :
    s.proposalIdCounter ≤ (applyOp s op).proposalIdCounter := by
  unfold applyOp
  cases hx : execOp s op with
  | error e => exact le_refl _
  | ok s1 =>
    cases op with
    | registerUser c u m ut t =>
      obtain ⟨-, h2⟩ := registerUser_ok s c u m ut t s1 hx; subst h2; exact le_refl _
    | verifyUser c tg =>
      obtain ⟨-, -, -, h2⟩ := verifyUser_ok s c tg s1 hx; subst h2; exact le_refl _
    | createPost c ch mh cat t =>
      obtain ⟨-, h2⟩ := createPost_ok s c ch mh cat t s1 hx; subst h2; exact le_refl _
    | likePost c p =>
      obtain ⟨-, -, h2⟩ := likePost_ok s c p s1 hx; subst h2; exact le_refl _
    | unlikePost c p =>
      obtain ⟨-, -, h2⟩ := unlikePost_ok s c p s1 hx; subst h2; exact le_refl _
    | addComment c p content t =>
      obtain ⟨-, -, h2⟩ := addComment_ok s c p content t s1 hx; subst h2; exact le_refl _
    | flagContent c p =>
      obtain ⟨-, -, -, h2⟩ := flagContent_ok s c p s1 hx; subst h2; exact le_refl _
    | startModerationVote c p t =>
      obtain ⟨-, -, -, h2⟩ := startModerationVote_ok s c p t s1 hx; subst h2
      exact Nat.le_succ _
    | castModerationVote c pid sup w t =>
      obtain ⟨-, -, -, -, -, -, -, -, -, -, -, -, -, h14, -, -, -, -, -, -, -, -⟩ :=
        castModerationVote_ok s c pid sup w t s1 hx
      exact le_of_eq h14.symm
    | executeModerationVote c p t =>
      obtain ⟨-, -, -, h2⟩ := executeModerationVote_ok s p t s1 hx; subst h2; exact le_refl _
    | createProposal c pt d dh t =>
      obtain ⟨-, h2⟩ := createProposal_ok s c pt d dh t s1 hx; subst h2; exact Nat.le_succ _
    | executeProposal c pid t =>
      obtain ⟨-, -, -, -, -, -, -, -, -, -, -, -, -, h14, -⟩ := executeProposal_ok s pid t s1 hx
      exact le_of_eq h14.symm
    | followUser c tg =>
      obtain ⟨-, -, -, -, h2⟩ := followUser_ok s c tg s1 hx; subst h2; exact le_refl _
    | grantRole c r a =>
      obtain ⟨-, h2⟩ := grantRole_ok s c r a s1 hx; subst h2; exact le_refl _
    | revokeRole c r a =>
      obtain ⟨-, h2⟩ := revokeRole_ok s c r a s1 hx; subst h2; exact le_refl _
    | renounceRole c r a =>
      obtain ⟨-, h2⟩ := renounceRole_ok s c r a s1 hx; subst h2; exact le_refl _

/-! ### Terminal statuses are consistent with the tallies, inductively -/

theorem statusConsistent_step (s : State) (op : Op) (hJ : statusConsistent s) :
    statusConsistent (applyOp s op) := by
  unfold applyOp
  cases hx : execOp s op with
  | error e => exact hJ
  | ok s1 =>
    cases op with
    | registerUser c u m ut t =>
      obtain ⟨-, h2⟩ := registerUser_ok s c u m ut t s1 hx; subst h2; exact hJ
    | verifyUser c tg =>
      obtain ⟨-, -, -, h2⟩ := verifyUser_ok s c tg s1 hx; subst h2; exact hJ
    | createPost c ch mh cat t =>
      obtain ⟨-, h2⟩ := createPost_ok s c ch mh cat t s1 hx; subst h2; exact hJ
    | likePost c p =>
      obtain ⟨-, -, h2⟩ := likePost_ok s c p s1 hx; subst h2; exact hJ
    | unlikePost c p =>
      obtain ⟨-, -, h2⟩ := unlikePost_ok s c p s1 hx; subst h2; exact hJ
    | addComment c p content t =>
      obtain ⟨-, -, h2⟩ := addComment_ok s c p content t s1 hx; subst h2; exact hJ
    | flagContent c p =>
      obtain ⟨-, -, -, h2⟩ := flagContent_ok s c p s1 hx; subst h2; exact hJ
    | startModerationVote c p t =>
      obtain ⟨-, -, -, h2⟩ := startModerationVote_ok s c p t s1 hx; subst h2
      intro q
      by_cases hq : q = s.proposalIdCounter
      · subst hq
        constructor <;> intro hst <;> simp [updf] at hst
      · simpa [updf, hq] using hJ q
    | castModerationVote c pid sup w t =>
      obtain ⟨-, hact, -, -, -, -, -, -, -, -, -, -, -, -, -, -, -, -, -, hprops, -, -⟩ :=
        castModerationVote_ok s c pid sup w t s1 hx
      intro q
      rw [hprops]
      by_cases hq : q = pid
      · rw [hq]
        cases sup <;> constructor <;> intro hst <;> simp [updf, hact] at hst
      · simpa [updf, hq] using hJ q
    | executeModerationVote c p t =>
      obtain ⟨-, -, -, h2⟩ := executeModerationVote_ok s p t s1 hx; subst h2
      intro q
      by_cases hq : q = (s.moderationVotes p).proposalId
      · subst hq
        constructor <;> intro hst
        · by_cases hpc : passCond (s.proposals (s.moderationVotes p).proposalId)
          · simpa [passCond, updf] using hpc
          · simp [updf, hpc] at hst
        · by_cases hpc : passCond (s.proposals (s.moderationVotes p).proposalId)
          · simp [updf, hpc] at hst
          · simpa [passCond, updf] using hpc
      · simpa [updf, hq] using hJ q
    | createProposal c pt d dh t =>
      obtain ⟨-, h2⟩ := createProposal_ok s c pt d dh t s1 hx; subst h2
      intro q
      by_cases hq : q = s.proposalIdCounter
      · subst hq
        constructor <;> intro hst <;> simp [updf] at hst
      · simpa [updf, hq] using hJ q
    | executeProposal c pid t =>
      obtain ⟨-, hact, -, -, -, -, -, -, -, -, -, -, -, -, hprops⟩ :=
        executeProposal_ok s pid t s1 hx
      intro q
      rw [hprops]
      by_cases hq : q = pid
      · rw [hq]
        constructor <;> intro hst
        · by_cases hpc : passCond (s.proposals pid)
          · simpa [passCond, updf] using hpc
          · simp [updf, hpc] at hst
        · by_cases hpc : passCond (s.proposals pid)
          · simp [updf, hpc] at hst
          · simpa [passCond, updf] using hpc
      · simpa [updf, hq] using hJ q
    | followUser c tg =>
      obtain ⟨-, -, -, -, h2⟩ := followUser_ok s c tg s1 hx; subst h2; exact hJ
    | grantRole c r a =>
      obtain ⟨-, h2⟩ := grantRole_ok s c r a s1 hx; subst h2; exact hJ
    | revokeRole c r a =>
      obtain ⟨-, h2⟩ := revokeRole_ok s c r a s1 hx; subst h2; exact hJ
    | renounceRole c r a =>
      obtain ⟨-, h2⟩ := renounceRole_ok s c r a s1 hx; subst h2; exact hJ

theorem statusConsistent_init (d : Addr) : statusConsistent (initState d) := by
  intro pid
  constructor <;> intro h <;> simp [initState, defaultProposal] at h

theorem statusConsistent_run_of (ops : List Op) :
    ∀ s, statusConsistent s → statusConsistent (run s ops) := by
  induction ops with
  | nil => exact fun s hs => hs
  | cons op rest ih => exact fun s hs => ih _ (statusConsistent_step s op hs)

theorem statusConsistent_run (d : Addr) (ops : List Op) :
    statusConsistent (run (initState d) ops) :=
  statusConsistent_run_of ops _ (statusConsistent_init d)

/-! ### An allocated proposal in a terminal state is frozen -/

theorem proposals_frozen_step (s : State) (op : Op) (pid : Nat)
    (hJ : statusConsistent s) (hlt : pid < s.proposalIdCounter)
    (hterm : (s.proposals pid).status = .Executed ∨ (s.proposals pid).status = .Rejected) :
    (applyOp s op).proposals pid = s.proposals pid := by
  unfold applyOp
  cases hx : execOp s op with
  | error e => rfl
  | ok s1 =>
    cases op with
    | registerUser c u m ut t =>
      obtain ⟨-, h2⟩ := registerUser_ok s c u m ut t s1 hx; subst h2; rfl
    | verifyUser c tg =>
      obtain ⟨-, -, -, h2⟩ := verifyUser_ok s c tg s1 hx; subst h2; rfl
    | createPost c ch mh cat t =>
      obtain ⟨-, h2⟩ := createPost_ok s c ch mh cat t s1 hx; subst h2; rfl
    | likePost c p =>
      obtain ⟨-, -, h2⟩ := likePost_ok s c p s1 hx; subst h2; rfl
    | unlikePost c p =>
      obtain ⟨-, -, h2⟩ := unlikePost_ok s c p s1 hx; subst h2; rfl
    | addComment c p content t =>
      obtain ⟨-, -, h2⟩ := addComment_ok s c p content t s1 hx; subst h2; rfl
    | flagContent c p =>
      obtain ⟨-, -, -, h2⟩ := flagContent_ok s c p s1 hx; subst h2; rfl
    | startModerationVote c p t =>
      obtain ⟨-, -, -, h2⟩ := startModerationVote_ok s c p t s1 hx; subst h2
      exact updf_other _ _ _ _ (Nat.ne_of_lt hlt)
    | castModerationVote c pid2 sup w t =>
      obtain ⟨-, hact, -, -, -, -, -, -, -, -, -, -, -, -, -, -, -, -, -, hprops, -, -⟩ :=
        castModerationVote_ok s c pid2 sup w t s1 hx
      rw [hprops]
      have hne : pid ≠ pid2 := by
        intro he
        rcases hterm with h | h <;> rw [he, hact] at h <;> simp at h
      exact updf_other _ _ _ _ hne
    | executeModerationVote c p t =>
      obtain ⟨-, -, -, h2⟩ := executeModerationVote_ok s p t s1 hx; subst h2
      by_cases hq : pid = (s.moderationVotes p).proposalId
      · rw [← hq]
        rcases hterm with hE | hR
        · have hpc := (hJ pid).1 hE
          simp only [updf_same, if_pos hpc]
          rw [← hE]
        · have hpc := (hJ pid).2 hR
          simp only [updf_same, if_neg hpc]
          rw [← hR]
      · exact updf_other _ _ _ _ hq
    | createProposal c pt d dh t =>
      obtain ⟨-, h2⟩ := createProposal_ok s c pt d dh t s1 hx; subst h2
      exact updf_other _ _ _ _ (Nat.ne_of_lt hlt)
    | executeProposal c pid2 t =>
      obtain ⟨-, hact, -, -, -, -, -, -, -, -, -, -, -, -, hprops⟩ :=
        executeProposal_ok s pid2 t s1 hx
      rw [hprops]
      have hne : pid ≠ pid2 := by
        intro he
        rcases hterm with h | h <;> rw [he, hact] at h <;> simp at h
      exact updf_other _ _ _ _ hne
    | followUser c tg =>
      obtain ⟨-, -, -, -, h2⟩ := followUser_ok s c tg s1 hx; subst h2; rfl
    | grantRole c r a =>
      obtain ⟨-, h2⟩ := grantRole_ok s c r a s1 hx; subst h2; rfl
    | revokeRole c r a =>
      obtain ⟨-, h2⟩ := revokeRole_ok s c r a s1 hx; subst h2; rfl
    | renounceRole c r a =>
      obtain ⟨-, h2⟩ := renounceRole_ok s c r a s1 hx; subst h2; rfl

theorem proposals_frozen_run (ops : List Op) :
    ∀ s pid, statusConsistent s → pid < s.proposalIdCounter →
      ((s.proposals pid).status = .Executed ∨ (s.proposals pid).status = .Rejected) →
      (run s ops).proposals pid = s.proposals pid := by
  induction ops with
  | nil => intro s pid _ _ _; rfl
  | cons op rest ih =>
    intro s pid hJ hlt hterm
    have hstep := proposals_frozen_step s op pid hJ hlt hterm
    have hrest := ih (applyOp s op) pid (statusConsistent_step s op hJ)
      (lt_of_lt_of_le hlt (counter_mono s op)) (by rw [hstep]; exact hterm)
    calc (run (applyOp s op) rest).proposals pid
        = (applyOp s op).proposals pid := hrest
      _ = s.proposals pid := hstep


/-- C3: once a proposal's status is `Executed` or `Rejected` (a terminal
state), no subsequent sequence of operations changes any field of that
proposal; in particular a proposal is executed at most once across both
execution entry points.  `pid < proposalIdCounter` states that `pid` is an
allocated proposal id (ids are handed out by the counter, so only slots
below the counter hold proposals). -/
theorem claim3_terminal_immutable (d : Addr) (ops1 ops2 : List Op) (pid : Nat)
    (hlt : pid < (run (initState d) ops1).proposalIdCounter)
    (hterm : ((run (initState d) ops1).proposals pid).status = .Executed ∨
             ((run (initState d) ops1).proposals pid).status = .Rejected) :
    (run (run (initState d) ops1) ops2).proposals pid =
      (run (initState d) ops1).proposals pid :=
  proposals_frozen_run ops2 _ pid (statusConsistent_run d ops1) hlt hterm

/-- Witness for C3: proposal 0 of `rejectedScenario` is terminal
(`Rejected`) and survives a further `createProposal` unchanged. -/
theorem claim3_witness :
    (0 < (run (initState 1) rejectedScenario).proposalIdCounter ∧
     ((run (initState 1) rejectedScenario).proposals 0).status = .Rejected) ∧
    (run (run (initState 1) rejectedScenario)
        [.createProposal 1 .GrantRole (.roleAddrData 5 5) "" 1]).proposals 0 =
      (run (initState 1) rejectedScenario).proposals 0 :=
  ⟨⟨by decide, by decide⟩,
    claim3_terminal_immutable 1 rejectedScenario
      [.createProposal 1 .GrantRole (.roleAddrData 5 5) "" 1] 0
      (by decide) (Or.inr (by decide))⟩


/-! ### The follow relation stays irreflexive and duplicate-free -/

theorem followInv_of_preserved (s s' : State) (h : s'.following = s.following)
    (hF : followInv s) : followInv s' := by
  intro u
  rw [h]
  exact hF u

theorem followInv_step (s : State) (op : Op) (hF : followInv s) :
    followInv (applyOp s op) := by
  unfold applyOp
  cases hx : execOp s op with
  | error e => exact hF
  | ok s1 =>
    cases op with
    | registerUser c u m ut t =>
      obtain ⟨-, h2⟩ := registerUser_ok s c u m ut t s1 hx; subst h2
      exact followInv_of_preserved s _ rfl hF
    | verifyUser c tg =>
      obtain ⟨-, -, -, h2⟩ := verifyUser_ok s c tg s1 hx; subst h2
      exact followInv_of_preserved s _ rfl hF
    | createPost c ch mh cat t =>
      obtain ⟨-, h2⟩ := createPost_ok s c ch mh cat t s1 hx; subst h2
      exact followInv_of_preserved s _ rfl hF
    | likePost c p =>
      obtain ⟨-, -, h2⟩ := likePost_ok s c p s1 hx; subst h2
      exact followInv_of_preserved s _ rfl hF
    | unlikePost c p =>
      obtain ⟨-, -, h2⟩ := unlikePost_ok s c p s1 hx; subst h2
      exact followInv_of_preserved s _ rfl hF
    | addComment c p content t =>
      obtain ⟨-, -, h2⟩ := addComment_ok s c p content t s1 hx; subst h2
      exact followInv_of_preserved s _ rfl hF
    | flagContent c p =>
      obtain ⟨-, -, -, h2⟩ := flagContent_ok s c p s1 hx; subst h2
      exact followInv_of_preserved s _ rfl hF
    | startModerationVote c p t =>
      obtain ⟨-, -, -, h2⟩ := startModerationVote_ok s c p t s1 hx; subst h2
      exact followInv_of_preserved s _ rfl hF
    | castModerationVote c pid sup w t =>
      obtain ⟨-, -, -, -, -, -, -, -, -, hfol, -, -, -, -, -, -, -, -, -, -, -, -⟩ :=
        castModerationVote_ok s c pid sup w t s1 hx
      exact followInv_of_preserved s _ hfol hF
    | executeModerationVote c p t =>
      obtain ⟨-, -, -, h2⟩ := executeModerationVote_ok s p t s1 hx; subst h2
      exact followInv_of_preserved s _ rfl hF
    | createProposal c pt d dh t =>
      obtain ⟨-, h2⟩ := createProposal_ok s c pt d dh t s1 hx; subst h2
      exact followInv_of_preserved s _ rfl hF
    | executeProposal c pid t =>
      obtain ⟨-, -, -, -, -, -, -, hfol, -, -, -, -, -, -, -⟩ :=
        executeProposal_ok s pid t s1 hx
      exact followInv_of_preserved s _ hfol hF
    | followUser c tg =>
      obtain ⟨hne, -, -, hnotin, h2⟩ := followUser_ok s c tg s1 hx; subst h2
      intro u
      by_cases hu : u = c
      · rw [hu]
        constructor
        · simp only [updf_same, List.mem_append, List.mem_singleton]
          rintro (h | h)
          · exact (hF c).1 h
          · exact hne h.symm
        · simp only [updf_same, List.nodup_append]
          refine ⟨(hF c).2, List.nodup_singleton _, ?_⟩
          intro x hx1 hx2
          simp only [List.mem_singleton] at hx2
          subst hx2
          exact hnotin hx1
      · have := hF u
        simpa [updf, hu] using this
    | grantRole c r a =>
      obtain ⟨-, h2⟩ := grantRole_ok s c r a s1 hx; subst h2
      exact followInv_of_preserved s _ rfl hF
    | revokeRole c r a =>
      obtain ⟨-, h2⟩ := revokeRole_ok s c r a s1 hx; subst h2
      exact followInv_of_preserved s _ rfl hF
    | renounceRole c r a =>
      obtain ⟨-, h2⟩ := renounceRole_ok s c r a s1 hx; subst h2
      exact followInv_of_preserved s _ rfl hF

theorem followInv_init (d : Addr) : followInv (initState d) := by
  intro u
  constructor
  · simp [initState]
  · simp [initState]

theorem followInv_run (d : Addr) (ops : List Op) :
    followInv (run (initState d) ops) := by
  have key : ∀ (l : List Op) (s : State), followInv s → followInv (run s l) := by
    intro l
    induction l with
    | nil => exact fun s hs => hs
    | cons op rest ih => exact fun s hs => ih _ (followInv_step s op hs)
  exact key ops _ (followInv_init d)


/-! ### The like count always equals the number of true like records -/

theorem likersF_insert (f : Addr → Bool) (c : Addr) :
    likersF (updf f c true) = insert c (likersF f) := by
  ext a
  by_cases ha : a = c <;> simp [likersF, updf, ha]

theorem likersF_remove (f : Addr → Bool) (c : Addr) :
    likersF (updf f c false) = likersF f \ {c} := by
  ext a
  by_cases ha : a = c <;> simp [likersF, updf, ha]

theorem likeInv_of_preserved (s s' : State)
    (hlikes : s'.postLikes = s.postLikes)
    (hposts : ∀ q, (s'.posts q).likes = (s.posts q).likes ∧
                   (s'.posts q).author = (s.posts q).author)
    (hctr : s.postIdCounter ≤ s'.postIdCounter)
    (hL : likeInv s) : likeInv s' := by
  obtain ⟨hc1, hc2, hc3⟩ := hL
  refine ⟨fun q => ?_, fun q a hq => ?_, fun q hq => ?_⟩
  · have := hc1 q
    simpa [likersOf, hlikes, (hposts q).1] using this
  · rw [(hposts q).2]
    refine hc2 q a ?_
    rw [← hlikes]
    exact hq
  · have hq' : s.postIdCounter ≤ q := le_trans hctr hq
    refine ⟨?_, fun a => ?_⟩
    · rw [(hposts q).2]
      exact (hc3 q hq').1
    · rw [hlikes]
      exact (hc3 q hq').2 a

theorem likeInv_step (s : State) (op : Op) (hL : likeInv s) :
    likeInv (applyOp s op) := by
  unfold applyOp
  cases hx : execOp s op with
  | error e => exact hL
  | ok s1 =>
    show likeInv s1
    cases op with
    | registerUser c u m ut t =>
      obtain ⟨-, h2⟩ := registerUser_ok s c u m ut t s1 hx; subst h2
      exact likeInv_of_preserved s _ rfl (fun q => ⟨rfl, rfl⟩) (le_refl _) hL
    | verifyUser c tg =>
      obtain ⟨-, -, -, h2⟩ := verifyUser_ok s c tg s1 hx; subst h2
      exact likeInv_of_preserved s _ rfl (fun q => ⟨rfl, rfl⟩) (le_refl _) hL
    | createPost c ch mh cat t =>
      obtain ⟨-, h2⟩ := createPost_ok s c ch mh cat t s1 hx; subst h2
      obtain ⟨hc1, hc2, hc3⟩ := hL
      have hK := hc3 s.postIdCounter (le_refl _)
      refine ⟨fun q => ?_, fun q a hq => ?_, fun q hq => ?_⟩
      · by_cases hq : q = s.postIdCounter
        · rw [hq]
          have hempty : likersOf s s.postIdCounter = (∅ : Set Addr) := by
            ext a
            simp [likersOf, likersF, hK.2 a]
          refine ⟨?_, ?_⟩
          · show (likersOf s s.postIdCounter).Finite
            rw [hempty]
            exact Set.finite_empty
          · show (updf s.posts s.postIdCounter
                (NewsPost.mk s.postIdCounter c ch mh t cat 0 0 .None)
                s.postIdCounter).likes = (likersOf s s.postIdCounter).ncard
            rw [hempty, updf_same]
            simp
        · have := hc1 q
          simpa [likersOf, updf, hq] using this
      · by_cases hqk : q = s.postIdCounter
        · rw [hqk] at hq
          have : s.postLikes s.postIdCounter a = true := hq
          rw [hK.2 a] at this
          exact absurd this (by simp)
        · have hq' : s.postLikes q a = true := hq
          simpa [updf, hqk] using hc2 q a hq'
      · have hq2 : s.postIdCounter + 1 ≤ q := hq
        have hq' : s.postIdCounter ≤ q := le_trans (Nat.le_succ _) hq2
        have hne : q ≠ s.postIdCounter := by omega
        refine ⟨?_, fun a => ?_⟩
        · show (updf s.posts s.postIdCounter
              (NewsPost.mk s.postIdCounter c ch mh t cat 0 0 .None) q).author = 0
          rw [updf_other _ _ _ _ hne]
          exact (hc3 q hq').1
        · exact (hc3 q hq').2 a
    | likePost c p =>
      obtain ⟨hauthor, hnot, h2⟩ := likePost_ok s c p s1 hx; subst h2
      obtain ⟨hc1, hc2, hc3⟩ := hL
      have hfin : (likersF (s.postLikes p)).Finite := (hc1 p).1
      have hcard : (s.posts p).likes = (likersF (s.postLikes p)).ncard := (hc1 p).2
      have hcnot : c ∉ likersF (s.postLikes p) := by simp [likersF, hnot]
      refine ⟨fun q => ?_, fun q a hq => ?_, fun q hq => ?_⟩
      · by_cases hqp : q = p
        · rw [hqp]
          refine ⟨?_, ?_⟩
          · show (likersF (updf s.postLikes p (updf (s.postLikes p) c true) p)).Finite
            rw [updf_same, likersF_insert]
            exact hfin.insert c
          · show (updf s.posts p ({ s.posts p with likes := (s.posts p).likes + 1 }) p).likes
                = (likersF (updf s.postLikes p (updf (s.postLikes p) c true) p)).ncard
            rw [updf_same, updf_same, likersF_insert]
            rw [Set.ncard_insert_of_not_mem hcnot hfin]
            simp [hcard]
        · have := hc1 q
          simpa [likersOf, likersF, updf, hqp] using this
      · by_cases hqp : q = p
        · rw [hqp]
          simpa [updf] using hauthor
        · have hq' : s.postLikes q a = true := by simpa [updf, hqp] using hq
          simpa [updf, hqp] using hc2 q a hq'
      · have hqp : q ≠ p := by
          intro he
          rw [he] at hq
          exact hauthor (hc3 p hq).1
        refine ⟨?_, fun a => ?_⟩
        · simpa [updf, hqp] using (hc3 q hq).1
        · simpa [updf, hqp] using (hc3 q hq).2 a
    | unlikePost c p =>
      obtain ⟨hauthor, hliked, h2⟩ := unlikePost_ok s c p s1 hx; subst h2
      obtain ⟨hc1, hc2, hc3⟩ := hL
      have hfin : (likersF (s.postLikes p)).Finite := (hc1 p).1
      have hcard : (s.posts p).likes = (likersF (s.postLikes p)).ncard := (hc1 p).2
      have hcmem : c ∈ likersF (s.postLikes p) := by simp [likersF, hliked]
      refine ⟨fun q => ?_, fun q a hq => ?_, fun q hq => ?_⟩
      · by_cases hqp : q = p
        · rw [hqp]
          refine ⟨?_, ?_⟩
          · show (likersF (updf s.postLikes p (updf (s.postLikes p) c false) p)).Finite
            rw [updf_same, likersF_remove]
            exact hfin.diff _
          · show (updf s.posts p ({ s.posts p with likes := (s.posts p).likes - 1 }) p).likes
                = (likersF (updf s.postLikes p (updf (s.postLikes p) c false) p)).ncard
            rw [updf_same, updf_same, likersF_remove]
            rw [Set.ncard_diff_singleton_of_mem hcmem hfin]
            simp [hcard]
        · have := hc1 q
          simpa [likersOf, likersF, updf, hqp] using this
      · by_cases hqp : q = p
        · rw [hqp]
          simpa [updf] using hauthor
        · have hq' : s.postLikes q a = true := by simpa [updf, hqp] using hq
          simpa [updf, hqp] using hc2 q a hq'
      · have hqp : q ≠ p := by
          intro he
          rw [he] at hq
          exact hauthor (hc3 p hq).1
        refine ⟨?_, fun a => ?_⟩
        · simpa [updf, hqp] using (hc3 q hq).1
        · simpa [updf, hqp] using (hc3 q hq).2 a
    | addComment c p content t =>
      obtain ⟨-, -, h2⟩ := addComment_ok s c p content t s1 hx; subst h2
      refine likeInv_of_preserved s _ rfl (fun q => ?_) (le_refl _) hL
      by_cases hq : q = p <;> simp [updf, hq]
    | flagContent c p =>
      obtain ⟨-, -, -, h2⟩ := flagContent_ok s c p s1 hx; subst h2
      refine likeInv_of_preserved s _ rfl (fun q => ?_) (le_refl _) hL
      by_cases hq : q = p <;> simp [updf, hq]
    | startModerationVote c p t =>
      obtain ⟨-, -, -, h2⟩ := startModerationVote_ok s c p t s1 hx; subst h2
      refine likeInv_of_preserved s _ rfl (fun q => ?_) (le_refl _) hL
      by_cases hq : q = p <;> simp [updf, hq]
    | castModerationVote c pid sup w t =>
      obtain ⟨-, -, -, -, -, -, hposts, -, -, -, hlikes, hpctr, -, -, -, -, -, -, -, -, -, -⟩ :=
        castModerationVote_ok s c pid sup w t s1 hx
      exact likeInv_of_preserved s _ hlikes
        (fun q => by rw [hposts]; exact ⟨rfl, rfl⟩) (le_of_eq hpctr.symm) hL
    | executeModerationVote c p t =>
      obtain ⟨-, -, -, h2⟩ := executeModerationVote_ok s p t s1 hx; subst h2
      refine likeInv_of_preserved s _ rfl (fun q => ?_) (le_refl _) hL
      by_cases hq : q = p <;> simp [updf, hq]
    | createProposal c pt d dh t =>
      obtain ⟨-, h2⟩ := createProposal_ok s c pt d dh t s1 hx; subst h2
      exact likeInv_of_preserved s _ rfl (fun q => ⟨rfl, rfl⟩) (le_refl _) hL
    | executeProposal c pid t =>
      obtain ⟨-, -, -, -, hposts, -, -, -, hlikes, -, -, hpctr, -, -, -⟩ :=
        executeProposal_ok s pid t s1 hx
      exact likeInv_of_preserved s _ hlikes
        (fun q => by rw [hposts]; exact ⟨rfl, rfl⟩) (le_of_eq hpctr.symm) hL
    | followUser c tg =>
      obtain ⟨-, -, -, -, h2⟩ := followUser_ok s c tg s1 hx; subst h2
      exact likeInv_of_preserved s _ rfl (fun q => ⟨rfl, rfl⟩) (le_refl _) hL
    | grantRole c r a =>
      obtain ⟨-, h2⟩ := grantRole_ok s c r a s1 hx; subst h2
      exact likeInv_of_preserved s _ rfl (fun q => ⟨rfl, rfl⟩) (le_refl _) hL
    | revokeRole c r a =>
      obtain ⟨-, h2⟩ := revokeRole_ok s c r a s1 hx; subst h2
      exact likeInv_of_preserved s _ rfl (fun q => ⟨rfl, rfl⟩) (le_refl _) hL
    | renounceRole c r a =>
      obtain ⟨-, h2⟩ := renounceRole_ok s c r a s1 hx; subst h2
      exact likeInv_of_preserved s _ rfl (fun q => ⟨rfl, rfl⟩) (le_refl _) hL

theorem likeInv_init (d : Addr) : likeInv (initState d) := by
  refine ⟨fun p => ?_, fun p a h => ?_, fun p hp => ?_⟩
  · have hempty : likersOf (initState d) p = (∅ : Set Addr) := by
      ext a
      simp [likersOf, likersF, initState]
    rw [hempty]
    exact ⟨Set.finite_empty, by simp [initState, defaultPost]⟩
  · simp [initState] at h
  · exact ⟨by simp [initState, defaultPost], fun a => by simp [initState]⟩

theorem likeInv_run (d : Addr) (ops : List Op) :
    likeInv (run (initState d) ops) := by
  have key : ∀ (l : List Op) (s : State), likeInv s → likeInv (run s l) := by
    intro l
    induction l with
    | nil => exact fun s hs => hs
    | cons op rest ih => exact fun s hs => ih _ (likeInv_step s op hs)
  exact key ops _ (likeInv_init d)


/-! ### Claim theorems -/

/-- C1 as stated is false: in `execProposalScenario` the proposal is of
kind RemoveContent, it passes (quorum and strict majority), and
`executeProposal` runs after the deadline and marks it `Executed` — yet
the referenced post's status stays `UnderVote` instead of becoming
`Removed`: `executeProposal` has no RemoveContent branch. -/
theorem claim1_counterexample :
    ((run (initState 1) moderationScenario).proposals 0).proposalType = .RemoveContent ∧
    passCond ((run (initState 1) moderationScenario).proposals 0) ∧
    ((run (initState 1) execProposalScenario).proposals 0).status = .Executed ∧
    ((run (initState 1) execProposalScenario).posts 0).moderationStatus = .UnderVote ∧
    ModerationStatus.UnderVote ≠ ModerationStatus.Removed := by
  refine ⟨by decide, by decide, by decide, by decide, by decide⟩

/-- C1 (amended): a successful `executeProposal` on a RemoveContent
proposal changes no post and no moderation-vote record at all; it only
sets the proposal's status — `Executed` when the proposal passes,
`Rejected` otherwise.  The moderation transition is applied solely by
`executeModerationVote`. -/
theorem claim1_removeContent_noPostEffect (s : State) (pid t : Nat) (s' : State)
    (_hk : (s.proposals pid).proposalType = .RemoveContent)
    (hex : executeProposal s pid t = .ok s') :
    s'.posts = s.posts ∧ s'.moderationVotes = s.moderationVotes ∧
    (passCond (s.proposals pid) → (s'.proposals pid).status = .Executed) ∧
    (¬ passCond (s.proposals pid) → (s'.proposals pid).status = .Rejected) := by
  obtain ⟨-, -, -, -, hposts, -, -, -, -, -, hmv, -, -, -, hprops⟩ :=
    executeProposal_ok s pid t s' hex
  refine ⟨hposts, hmv, fun hpc => ?_, fun hpc => ?_⟩
  · rw [hprops]
    simp [updf, hpc]
  · rw [hprops]
    simp [updf, hpc]

/-- Witness for the amended C1, at the concrete `execProposalScenario`. -/
theorem claim1_witness :
    ((run (initState 1) moderationScenario).proposals 0).proposalType = .RemoveContent ∧
    ((run (initState 1) execProposalScenario).posts =
       (run (initState 1) moderationScenario).posts ∧
     (run (initState 1) execProposalScenario).moderationVotes =
       (run (initState 1) moderationScenario).moderationVotes ∧
     (passCond ((run (initState 1) moderationScenario).proposals 0) →
       ((run (initState 1) execProposalScenario).proposals 0).status = .Executed) ∧
     (¬ passCond ((run (initState 1) moderationScenario).proposals 0) →
       ((run (initState 1) execProposalScenario).proposals 0).status = .Rejected)) :=
  ⟨by decide,
   claim1_removeContent_noPostEffect (run (initState 1) moderationScenario) 0 259201
     (run (initState 1) execProposalScenario) (by decide) rfl⟩

/-- C2's failing input: in `phantomScenario` no moderation vote was ever
started for post 0 (its vote record is still the zero default) and the
post's status is `None`; nevertheless `executeModerationVote(0)` succeeds
against the default record — whose `postId == 0` check is vacuous — and
moves the post directly from `None` to `Removed`, an edge not in the
specified graph None→Flagged→UnderVote→(Removed or None). -/
theorem claim2_code_divergence :
    (run (initState 1) phantomScenario).moderationVotes 0 = defaultModerationVote ∧
    ((run (initState 1) phantomScenario).posts 0).moderationStatus = .None ∧
    ((run (initState 1) phantomExecScenario).posts 0).moderationStatus = .Removed := by
  refine ⟨by decide, by decide, by decide⟩

/-- C4 as stated is false: in `rogueScenario` post 0's moderation vote has
`forRemovalVotes = 10 > 0 = againstRemovalVotes` (so the claim's
quorum-and-majority over the ModerationVote tallies holds), its deadline
has passed and it is not executed — yet `executeModerationVote` resolves
it to `None` / `Rejected`, because the code reads the *linked proposal's*
tallies (here 0/0), not the ModerationVote's. -/
theorem claim4_counterexample :
    ((run (initState 1) rogueScenario).moderationVotes 0).postId = 0 ∧
    ((run (initState 1) rogueScenario).moderationVotes 0).executed = false ∧
    ((run (initState 1) rogueScenario).moderationVotes 0).endTime ≤ 259201 ∧
    ((run (initState 1) rogueScenario).moderationVotes 0).forRemovalVotes = 10 ∧
    ((run (initState 1) rogueScenario).moderationVotes 0).againstRemovalVotes = 0 ∧
    ((run (initState 1) rogueExecScenario).posts 0).moderationStatus = .None ∧
    ((run (initState 1) rogueExecScenario).proposals
        ((run (initState 1) rogueScenario).moderationVotes 0).proposalId).status
      = .Rejected := by
  refine ⟨by decide, by decide, by decide, by decide, by decide, by decide, by decide⟩

/-- C4 (amended): for every post with a moderation vote whose deadline has
passed and which has not been executed, `executeModerationVote` succeeds,
marks it executed, and decides the outcome from the *linked proposal's*
tallies: quorum iff `forWeight + againstWeight > 0` and majority iff
`forWeight > againstWeight` (strict, ties fail); if both hold the post
becomes `Removed` and the proposal `Executed`, otherwise the post becomes
`None` and the proposal `Rejected` — exactly one of the two. -/
theorem claim4_execute_outcome (s : State) (p t : Nat)
    (hv : (s.moderationVotes p).postId = p)
    (hne : (s.moderationVotes p).executed = false)
    (hd : (s.moderationVotes p).endTime ≤ t) :
    ∃ s', executeModerationVote s p t = .ok s' ∧
      (s'.moderationVotes p).executed = true ∧
      (passCond (s.proposals (s.moderationVotes p).proposalId) →
         (s'.posts p).moderationStatus = .Removed ∧
         (s'.proposals (s.moderationVotes p).proposalId).status = .Executed) ∧
      (¬ passCond (s.proposals (s.moderationVotes p).proposalId) →
         (s'.posts p).moderationStatus = .None ∧
         (s'.proposals (s.moderationVotes p).proposalId).status = .Rejected) := by
  cases hex : executeModerationVote s p t with
  | error e =>
    exfalso
    simp [executeModerationVote, hv, hne, Nat.not_lt.mpr hd] at hex
    split at hex <;> simp at hex
  | ok s' =>
    obtain ⟨-, -, -, h2⟩ := executeModerationVote_ok s p t s' hex
    subst h2
    refine ⟨_, rfl, by simp [updf], fun hpc => ?_, fun hpc => ?_⟩
    · constructor <;> simp [updf, hpc]
    · constructor <;> simp [updf, hpc]

/-- Witness for the amended C4: executing the zero-tally moderation vote
of `startedVoteScenario` after the deadline. -/
theorem claim4_witness :
    ((run (initState 1) startedVoteScenario).moderationVotes 0).postId = 0 ∧
    ((run (initState 1) startedVoteScenario).moderationVotes 0).executed = false ∧
    ((run (initState 1) startedVoteScenario).moderationVotes 0).endTime ≤ 259201 ∧
    (∃ s', executeModerationVote (run (initState 1) startedVoteScenario) 0 259201 = .ok s' ∧
      (s'.moderationVotes 0).executed = true ∧
      (passCond ((run (initState 1) startedVoteScenario).proposals
          ((run (initState 1) startedVoteScenario).moderationVotes 0).proposalId) →
         (s'.posts 0).moderationStatus = .Removed ∧
         (s'.proposals ((run (initState 1) startedVoteScenario).moderationVotes 0).proposalId).status = .Executed) ∧
      (¬ passCond ((run (initState 1) startedVoteScenario).proposals
          ((run (initState 1) startedVoteScenario).moderationVotes 0).proposalId) →
         (s'.posts 0).moderationStatus = .None ∧
         (s'.proposals ((run (initState 1) startedVoteScenario).moderationVotes 0).proposalId).status = .Rejected)) :=
  ⟨by decide, by decide, by decide,
   claim4_execute_outcome (run (initState 1) startedVoteScenario) 0 259201
     (by decide) (by decide) (by decide)⟩

/-- C5 as stated is false: in `rogueScenario` proposal 0 was created by
`startModerationVote` for post 0 and is the proposal its ModerationVote
record links to, yet the record's `forRemovalVotes` is 10 while the
proposal's `forWeight` is 0 — a vote on a *different* RemoveContent
proposal carrying the same post id desynchronised the two tallies. -/
theorem claim5_counterexample :
    ((run (initState 1) rogueScenario).moderationVotes 0).proposalId = 0 ∧
    ((run (initState 1) rogueScenario).proposals 0).proposalType = .RemoveContent ∧
    ((run (initState 1) rogueScenario).proposals 0).forVotes = 0 ∧
    ((run (initState 1) rogueScenario).moderationVotes 0).forRemovalVotes = 10 ∧
    (0 : Nat) ≠ 10 := by
  refine ⟨by decide, by decide, by decide, by decide, by decide⟩

/-- C5 (amended): the two tallies agree at creation and stay in sync under
every vote cast *on the linked proposal itself*: `startModerationVote`
creates proposal and vote record with equal (zero) tallies, and if the
record for post `p` links to RemoveContent proposal `pid` with payload
`p` and the tallies agree, then any successful `castModerationVote` on
`pid` adds the same weight to both, keeping them equal.  (Votes on a
different RemoveContent proposal with the same payload post id are what
breaks the correspondence.) -/
theorem claim5_sync (s : State) (pid p : Nat)
    (hlink : (s.moderationVotes p).proposalId = pid)
    (hkind : (s.proposals pid).proposalType = .RemoveContent)
    (hdata : (s.proposals pid).data = .uintData p)
    (hsyncF : (s.moderationVotes p).forRemovalVotes = (s.proposals pid).forVotes)
    (hsyncA : (s.moderationVotes p).againstRemovalVotes = (s.proposals pid).againstVotes) :
    (∀ c sup w t s', castModerationVote s c pid sup w t = .ok s' →
       (s'.moderationVotes p).proposalId = pid ∧
       (s'.moderationVotes p).forRemovalVotes = (s'.proposals pid).forVotes ∧
       (s'.moderationVotes p).againstRemovalVotes = (s'.proposals pid).againstVotes) ∧
    (∀ c q t s', startModerationVote s c q t = .ok s' →
       (s'.moderationVotes q).forRemovalVotes
         = (s'.proposals (s'.moderationVotes q).proposalId).forVotes ∧
       (s'.moderationVotes q).againstRemovalVotes
         = (s'.proposals (s'.moderationVotes q).proposalId).againstVotes) := by
  constructor
  · intro c sup w t s' hok
    obtain ⟨-, -, -, -, -, -, -, -, -, -, -, -, -, -, -, -, -, -, -, hprops, -, hmirror⟩ :=
      castModerationVote_ok s c pid sup w t s' hok
    have hdec : decodeUint (s.proposals pid).data = some p := by
      rw [hdata]
      rfl
    have hmv := hmirror p hkind hdec
    refine ⟨?_, ?_, ?_⟩
    · rw [hmv]
      cases sup <;> simp [updf, hlink]
    · rw [hmv, hprops]
      cases sup <;> simp [updf, hsyncF, hsyncA]
    · rw [hmv, hprops]
      cases sup <;> simp [updf, hsyncF, hsyncA]
  · intro c q t s' hok
    obtain ⟨-, -, -, h2⟩ := startModerationVote_ok s c q t s' hok
    subst h2
    constructor <;> simp [updf]

/-- Witness for the amended C5: the moderation vote of
`startedVoteScenario` stays in sync with its linked proposal 0 under the
cast of `moderationScenario`. -/
theorem claim5_witness :
    (((run (initState 1) startedVoteScenario).moderationVotes 0).proposalId = 0 ∧
     ((run (initState 1) startedVoteScenario).proposals 0).proposalType = .RemoveContent ∧
     ((run (initState 1) startedVoteScenario).proposals 0).data = .uintData 0 ∧
     ((run (initState 1) startedVoteScenario).moderationVotes 0).forRemovalVotes
       = ((run (initState 1) startedVoteScenario).proposals 0).forVotes ∧
     ((run (initState 1) startedVoteScenario).moderationVotes 0).againstRemovalVotes
       = ((run (initState 1) startedVoteScenario).proposals 0).againstVotes) ∧
    (((run (initState 1) moderationScenario).moderationVotes 0).proposalId = 0 ∧
     ((run (initState 1) moderationScenario).moderationVotes 0).forRemovalVotes
       = ((run (initState 1) moderationScenario).proposals 0).forVotes ∧
     ((run (initState 1) moderationScenario).moderationVotes 0).againstRemovalVotes
       = ((run (initState 1) moderationScenario).proposals 0).againstVotes) :=
  ⟨⟨by decide, by decide, by decide, by decide, by decide⟩,
   (claim5_sync (run (initState 1) startedVoteScenario) 0 0
      (by decide) (by decide) (by decide) (by decide) (by decide)).1
     1 true 5 2 (run (initState 1) moderationScenario) rfl⟩


/-- C6: per (proposalId, identity) a vote succeeds at most once.  A
successful cast finds the has-voted flag unset, sets it, and adds the
weight exactly once to the tally selected by `support`; afterwards every
further cast by the same identity on the same proposal reverts — with
`AlreadyVoted` whenever it is attempted inside the voting window (after
the window the deadline guard fires first) — and leaves the state
unchanged.  (The source records the cast before mutating weights; in this
atomic embedding that ordering is captured by the single-step semantics.) -/
theorem claim6_vote_once (s : State) (c : Addr) (pid : Nat) (sup : Bool)
    (w t : Nat) (s' : State)
    (hok : castModerationVote s c pid sup w t = .ok s') :
    s.hasVoted pid c = false ∧
    s'.hasVoted pid c = true ∧
    (s'.proposals pid).forVotes
      = (s.proposals pid).forVotes + (if sup then w else 0) ∧
    (s'.proposals pid).againstVotes
      = (s.proposals pid).againstVotes + (if sup then 0 else w) ∧
    (∀ sup2 w2 t2, castModerationVote s' c pid sup2 w2 t2 =
       .error (if t2 < (s'.proposals pid).endTime then .alreadyVoted
               else .votingPeriodEnded)) ∧
    (∀ sup2 w2 t2, applyOp s' (.castModerationVote c pid sup2 w2 t2) = s') := by
  obtain ⟨hid, hact, -, hnv, hreg, husers, -, -, -, -, -, -, -, -, -, -, -, -, hhv, hprops, -, -⟩ :=
    castModerationVote_ok s c pid sup w t s' hok
  have hv' : s'.hasVoted pid c = true := by
    rw [hhv]
    simp [updf]
  have hid' : (s'.proposals pid).id = pid := by
    rw [hprops]
    cases sup <;> simp [updf, hid]
  have hact' : (s'.proposals pid).status = .Active := by
    rw [hprops]
    cases sup <;> simp [updf, hact]
  have hsecond : ∀ sup2 w2 t2, castModerationVote s' c pid sup2 w2 t2 =
      .error (if t2 < (s'.proposals pid).endTime then Err.alreadyVoted
              else Err.votingPeriodEnded) := by
    intro sup2 w2 t2
    by_cases ht2 : t2 < (s'.proposals pid).endTime
    · simp [castModerationVote, hid', hact', ht2, hv']
    · simp [castModerationVote, hid', hact', ht2]
  refine ⟨hnv, hv', ?_, ?_, hsecond, ?_⟩
  · rw [hprops]
    cases sup <;> simp [updf]
  · rw [hprops]
    cases sup <;> simp [updf]
  · intro sup2 w2 t2
    unfold applyOp
    simp only [execOp]
    rw [hsecond sup2 w2 t2]

/-- Witness for C6 at the cast of `moderationScenario`. -/
theorem claim6_witness :
    (run (initState 1) startedVoteScenario).hasVoted 0 1 = false ∧
    (run (initState 1) moderationScenario).hasVoted 0 1 = true ∧
    ((run (initState 1) moderationScenario).proposals 0).forVotes
      = ((run (initState 1) startedVoteScenario).proposals 0).forVotes
        + (if true then 5 else 0) ∧
    ((run (initState 1) moderationScenario).proposals 0).againstVotes
      = ((run (initState 1) startedVoteScenario).proposals 0).againstVotes
        + (if true then 0 else 5) ∧
    (∀ sup2 w2 t2,
       castModerationVote (run (initState 1) moderationScenario) 1 0 sup2 w2 t2 =
       .error (if t2 < ((run (initState 1) moderationScenario).proposals 0).endTime
               then .alreadyVoted else .votingPeriodEnded)) ∧
    (∀ sup2 w2 t2,
       applyOp (run (initState 1) moderationScenario)
         (.castModerationVote 1 0 sup2 w2 t2) = run (initState 1) moderationScenario) :=
  claim6_vote_once (run (initState 1) startedVoteScenario) 1 0 true 5 2
    (run (initState 1) moderationScenario) rfl

/-- C7: both execution entry points are idempotent-safe.  A successful
`executeModerationVote` flips the record's executed flag and every later
call on the same record reverts with `AlreadyExecuted` leaving the state
unchanged; a successful `executeProposal` leaves the proposal in a
terminal status (`Executed` or `Rejected`) and every later call on it
reverts with `InvalidState` ("proposal not active") leaving the state
unchanged. -/
theorem claim7_idempotent :
    (∀ s p t s', executeModerationVote s p t = .ok s' →
       (s'.moderationVotes p).executed = true ∧
       (∀ t2, executeModerationVote s' p t2 = .error .voteAlreadyExecuted) ∧
       (∀ c t2, applyOp s' (.executeModerationVote c p t2) = s')) ∧
    (∀ s pid t s', executeProposal s pid t = .ok s' →
       ((s'.proposals pid).status = .Executed ∨ (s'.proposals pid).status = .Rejected) ∧
       (∀ t2, executeProposal s' pid t2 = .error .proposalNotActive) ∧
       (∀ c t2, applyOp s' (.executeProposal c pid t2) = s')) := by
  constructor
  · intro s p t s' hok
    obtain ⟨hpost, -, -, h2⟩ := executeModerationVote_ok s p t s' hok
    have hpost' : (s'.moderationVotes p).postId = p := by
      rw [h2]
      simp [updf, hpost]
    have hexec' : (s'.moderationVotes p).executed = true := by
      rw [h2]
      simp [updf]
    have hsecond : ∀ t2, executeModerationVote s' p t2 = .error .voteAlreadyExecuted := by
      intro t2
      simp [executeModerationVote, hpost', hexec']
    refine ⟨hexec', hsecond, ?_⟩
    intro c t2
    unfold applyOp
    simp only [execOp]
    rw [hsecond t2]
  · intro s pid t s' hok
    obtain ⟨hid, -, -, -, -, -, -, -, -, -, -, -, -, -, hprops⟩ :=
      executeProposal_ok s pid t s' hok
    have hid' : (s'.proposals pid).id = pid := by
      rw [hprops]
      by_cases hpc : passCond (s.proposals pid) <;> simp [updf, hpc, hid]
    have hterm : (s'.proposals pid).status = .Executed ∨
        (s'.proposals pid).status = .Rejected := by
      rw [hprops]
      by_cases hpc : passCond (s.proposals pid)
      · left
        simp [updf, hpc]
      · right
        simp [updf, hpc]
    have hnact : (s'.proposals pid).status ≠ .Active := by
      rcases hterm with h | h <;> rw [h] <;> simp
    have hsecond : ∀ t2, executeProposal s' pid t2 = .error .proposalNotActive := by
      intro t2
      simp [executeProposal, hid', hnact]
    refine ⟨hterm, hsecond, ?_⟩
    intro c t2
    unfold applyOp
    simp only [execOp]
    rw [hsecond t2]

/-- Witness for C7: executing the moderation vote of
`startedVoteScenario` and the proposal of `rejectedScenario` once, then
observing that re-execution reverts without state change. -/
theorem claim7_witness :
    (((run (initState 1) startedVoteExec).moderationVotes 0).executed = true ∧
     (∀ t2, executeModerationVote (run (initState 1) startedVoteExec) 0 t2
        = .error .voteAlreadyExecuted) ∧
     (∀ c t2, applyOp (run (initState 1) startedVoteExec)
        (Op.executeModerationVote c 0 t2) = run (initState 1) startedVoteExec)) ∧
    ((((run (initState 1) rejectedScenario).proposals 0).status = .Executed ∨
      ((run (initState 1) rejectedScenario).proposals 0).status = .Rejected) ∧
     (∀ t2, executeProposal (run (initState 1) rejectedScenario) 0 t2
        = .error .proposalNotActive) ∧
     (∀ c t2, applyOp (run (initState 1) rejectedScenario) (Op.executeProposal c 0 t2)
        = run (initState 1) rejectedScenario)) :=
  ⟨claim7_idempotent.1 (run (initState 1) startedVoteScenario) 0 259201
     (run (initState 1) startedVoteExec) rfl,
   claim7_idempotent.2 (run (initState 1) (rejectedScenario.take 2)) 0 259201
     (run (initState 1) rejectedScenario) rfl⟩

/-- C10: casting a vote on a proposal whose kind is not RemoveContent
mutates only that proposal's tallies and the has-voted record of the
caller for that proposal: every post, every moderation-vote record, every
user profile, every platform parameter, every other proposal, and every
other has-voted entry — as well as comments, likes, follows, roles and
all counters — are unchanged. -/
theorem claim10_frame (s : State) (c : Addr) (pid : Nat) (sup : Bool)
    (w t : Nat) (s' : State)
    (hk : (s.proposals pid).proposalType ≠ .RemoveContent)
    (hok : castModerationVote s c pid sup w t = .ok s') :
    s'.posts = s.posts ∧ s'.users = s.users ∧
    s'.moderationVotes = s.moderationVotes ∧
    s'.postComments = s.postComments ∧ s'.userPosts = s.userPosts ∧
    s'.following = s.following ∧ s'.postLikes = s.postLikes ∧
    s'.roles = s.roles ∧
    s'.flagThreshold = s.flagThreshold ∧ s'.voteDuration = s.voteDuration ∧
    s'.quorumPercentage = s.quorumPercentage ∧
    s'.postIdCounter = s.postIdCounter ∧
    s'.commentIdCounter = s.commentIdCounter ∧
    s'.proposalIdCounter = s.proposalIdCounter ∧
    (∀ q, q ≠ pid → s'.proposals q = s.proposals q) ∧
    (∀ q a, ¬(q = pid ∧ a = c) → s'.hasVoted q a = s.hasVoted q a) ∧
    s'.hasVoted pid c = true ∧
    (s'.proposals pid).forVotes
      = (s.proposals pid).forVotes + (if sup then w else 0) ∧
    (s'.proposals pid).againstVotes
      = (s.proposals pid).againstVotes + (if sup then 0 else w) := by
  obtain ⟨-, -, -, -, -, husers, hposts, hcomments, huposts, hfol, hlikes,
      hpidc, hcidc, hprc, hflag, hdur, hquo, hroles, hhv, hprops, hmvkeep, -⟩ :=
    castModerationVote_ok s c pid sup w t s' hok
  refine ⟨hposts, husers, hmvkeep hk, hcomments, huposts, hfol, hlikes, hroles,
    hflag, hdur, hquo, hpidc, hcidc, hprc, ?_, ?_, ?_, ?_, ?_⟩
  · intro q hq
    rw [hprops]
    simp [updf, hq]
  · intro q a hqa
    rw [hhv]
    by_cases hq : q = pid
    · subst hq
      have ha : a ≠ c := fun hac => hqa ⟨rfl, hac⟩
      simp [updf, ha]
    · simp [updf, hq]
  · rw [hhv]
    simp [updf]
  · rw [hprops]
    cases sup <;> simp [updf]
  · rw [hprops]
    cases sup <;> simp [updf]

/-- Witness for C10: the cast of `phantomScenario` targets the GrantRole
proposal 0, so the frame conditions hold there. -/
theorem claim10_witness :
    ((run (initState 1) (phantomScenario.take 3)).proposals 0).proposalType
      ≠ ProposalType.RemoveContent ∧
    (run (initState 1) phantomScenario).posts
      = (run (initState 1) (phantomScenario.take 3)).posts ∧
    (run (initState 1) phantomScenario).moderationVotes
      = (run (initState 1) (phantomScenario.take 3)).moderationVotes ∧
    (run (initState 1) phantomScenario).hasVoted 0 1 = true :=
  have h := claim10_frame (run (initState 1) (phantomScenario.take 3)) 1 0 true 5 2
    (run (initState 1) phantomScenario) (by decide) rfl
  ⟨by decide, h.1, h.2.2.1, h.2.2.2.2.2.2.2.2.2.2.2.2.2.2.2.2.1⟩


/-- C8: for every reachable state, every post's like counter equals the
number of identities whose like record for it is true; `likePost` on an
already-true record reverts with `AlreadyLiked`; `unlikePost` on a false
record (for an existing post) reverts with `NotLiked`; a successful
unlike decrements a counter that is provably at least 1 (no underflow);
and a like followed by an unlike by the same identity restores the prior
like count. -/
theorem claim8_likeCount (d : Addr) (ops : List Op) (p : Nat) (c : Addr) :
    ((likersOf (run (initState d) ops) p).Finite ∧
     ((run (initState d) ops).posts p).likes
       = (likersOf (run (initState d) ops) p).ncard) ∧
    ((run (initState d) ops).postLikes p c = true →
       likePost (run (initState d) ops) c p = .error .alreadyLiked) ∧
    (((run (initState d) ops).posts p).author ≠ 0 →
       (run (initState d) ops).postLikes p c = false →
       unlikePost (run (initState d) ops) c p = .error .notLiked) ∧
    (∀ s1, unlikePost (run (initState d) ops) c p = .ok s1 →
       1 ≤ ((run (initState d) ops).posts p).likes ∧
       (s1.posts p).likes = ((run (initState d) ops).posts p).likes - 1) ∧
    (∀ s1, likePost (run (initState d) ops) c p = .ok s1 →
       ∃ s2, unlikePost s1 c p = .ok s2 ∧
         (s2.posts p).likes = ((run (initState d) ops).posts p).likes) := by
  obtain ⟨hc1, hc2, hc3⟩ := likeInv_run d ops
  refine ⟨hc1 p, ?_, ?_, ?_, ?_⟩
  · intro htrue
    have hau := hc2 p c htrue
    simp [likePost, hau, htrue]
  · intro hau hfalse
    simp [unlikePost, hau, hfalse]
  · intro s1 hok
    obtain ⟨hau, hliked, h2⟩ := unlikePost_ok _ c p s1 hok
    constructor
    · have hfin : (likersF ((run (initState d) ops).postLikes p)).Finite := (hc1 p).1
      have hcard : ((run (initState d) ops).posts p).likes
          = (likersF ((run (initState d) ops).postLikes p)).ncard := (hc1 p).2
      have hmem : c ∈ likersF ((run (initState d) ops).postLikes p) := by
        simp [likersF, hliked]
      have hpos : 0 < (likersF ((run (initState d) ops).postLikes p)).ncard :=
        (Set.ncard_pos hfin).mpr ⟨c, hmem⟩
      omega
    · rw [h2]
      simp [updf]
  · intro s1 hok
    obtain ⟨hau, hnot, h2⟩ := likePost_ok _ c p s1 hok
    have hau1 : (s1.posts p).author ≠ 0 := by
      rw [h2]
      simpa [updf] using hau
    have hlk1 : s1.postLikes p c = true := by
      rw [h2]
      simp [updf]
    cases hun : unlikePost s1 c p with
    | error e =>
      exfalso
      simp [unlikePost, hau1, hlk1] at hun
    | ok s2 =>
      obtain ⟨-, -, h3⟩ := unlikePost_ok s1 c p s2 hun
      refine ⟨s2, rfl, ?_⟩
      rw [h3, h2]
      simp [updf]

/-- Witness for C8 at `likeScenario`: the like record is true and a second
like reverts with `AlreadyLiked`. -/
theorem claim8_witness :
    ((run (initState 1) likeScenario).posts 0).likes = 1 ∧
    (run (initState 1) likeScenario).postLikes 0 1 = true ∧
    likePost (run (initState 1) likeScenario) 1 0 = .error .alreadyLiked :=
  ⟨by decide, by decide,
   (claim8_likeCount 1 likeScenario 0 1).2.1 (by decide)⟩

/-- C9: in every reachable state no identity's following list contains
that identity itself and no list contains duplicates; `followUser`
reverts (with no state change, by the transaction semantics) when the
target equals the caller, when either party is unregistered, or when the
target is already followed; a successful call appends exactly one entry
to the caller's list and changes no other list. -/
theorem claim9_follow :
    (∀ d ops u, u ∉ (run (initState d) ops).following u ∧
       ((run (initState d) ops).following u).Nodup) ∧
    (∀ s c tg, (tg = c ∨ (s.users tg).registrationTime = 0 ∨
        (s.users c).registrationTime = 0 ∨ tg ∈ s.following c) →
       ∃ e, followUser s c tg = .error e) ∧
    (∀ s c tg s', followUser s c tg = .ok s' →
       tg ∉ s.following c ∧ s'.following c = s.following c ++ [tg] ∧
       ∀ v, v ≠ c → s'.following v = s.following v) := by
  refine ⟨fun d ops u => followInv_run d ops u, fun s c tg h => ?_,
    fun s c tg s' h => ?_⟩
  · cases hf : followUser s c tg with
    | error e => exact ⟨e, rfl⟩
    | ok s2 =>
      exfalso
      obtain ⟨hne, hreg1, hreg2, hnotin, -⟩ := followUser_ok s c tg s2 hf
      rcases h with h | h | h | h
      · exact hne h
      · exact hreg1 h
      · exact hreg2 h
      · exact hnotin h
  · obtain ⟨-, -, -, hnotin, h2⟩ := followUser_ok s c tg s' h
    refine ⟨hnotin, ?_, ?_⟩
    · rw [h2]
      simp [updf]
    · intro v hv
      rw [h2]
      simp [updf, hv]

/-- Witness for C9 at `followScenario`. -/
theorem claim9_witness :
    (1 ∉ (run (initState 1) followScenario).following 1 ∧
     ((run (initState 1) followScenario).following 1).Nodup) ∧
    (∃ e, followUser (run (initState 1) followScenario) 1 2 = .error e) ∧
    (2 ∉ (run (initState 1) (followScenario.take 2)).following 1 ∧
     (run (initState 1) followScenario).following 1
       = (run (initState 1) (followScenario.take 2)).following 1 ++ [2] ∧
     ∀ v, v ≠ 1 → (run (initState 1) followScenario).following v
       = (run (initState 1) (followScenario.take 2)).following v) :=
  ⟨claim9_follow.1 1 followScenario 1,
   claim9_follow.2.1 (run (initState 1) followScenario) 1 2
     (Or.inr (Or.inr (Or.inr (by decide)))),
   claim9_follow.2.2 (run (initState 1) (followScenario.take 2)) 1 2
     (run (initState 1) followScenario) rfl⟩

end DeNews
